import Mathlib

/-!
Verification development for the OpenTESArena software renderer
(`SoftwareRenderer.cpp`): the clip-space geometry processor
(`swGeometry::ProcessClipSpaceTriangle`, `ProcessMeshForRasterization`),
the rasterizer/pixel-shader stage (`swShader::PixelShader_*`,
`swRender::RasterizeTriangles`) and the resource pools
(`SoftwareRenderer::tryCreate*` / `populate*`).

Doubles are embedded as exact rationals; machine integers as `ℤ`/`ℕ`;
C++ `std::clamp`, `std::min` and `static_cast<int>` are embedded
explicitly.  `DebugAssert` is an assertion, not control flow: release
builds proceed past it, so the embedded functions carry no assert
branches; theorems about the asserted bounds are stated separately.
-/

namespace OpenTESArena

/-- Clip-space position, the source's `Double4`, with exact rational
components. -/
structure Vec4 where
  x : ℚ
  y : ℚ
  z : ℚ
  w : ℚ
deriving DecidableEq, Repr

/-- Texture coordinate, the source's `Double2`. -/
structure Vec2 where
  x : ℚ
  y : ℚ
deriving DecidableEq, Repr

/-- Modelled from the spec: `Double4::lerp(v, t)` from the Math headers
(not among the provided sources); the spec describes clipping as "linear
interpolation (`t = insideDiff / (insideDiff − outsideDiff)`) on both the
clip-space position and the UV", i.e. componentwise `a + (b - a) * t`. -/
def Vec4.lerp (a b : Vec4) (t : ℚ) : Vec4 :=
  ⟨a.x + (b.x - a.x) * t, a.y + (b.y - a.y) * t, a.z + (b.z - a.z) * t, a.w + (b.w - a.w) * t⟩

/-- Modelled from the spec: `Double2::lerp(v, t)`, componentwise linear
interpolation, as for `Vec4.lerp`. -/
def Vec2.lerp (a b : Vec2) (t : ℚ) : Vec2 :=
  ⟨a.x + (b.x - a.x) * t, a.y + (b.y - a.y) * t⟩

/-- One clip-space triangle together with its three texture coordinates:
the unit of work of `swGeometry::ProcessClipSpaceTriangle`. -/
structure TriUV where
  v0 : Vec4
  v1 : Vec4
  v2 : Vec4
  uv0 : Vec2
  uv1 : Vec2
  uv2 : Vec2
deriving DecidableEq, Repr

namespace swGeometry

/-- The component-versus-w difference computed by the `switch` at the top
of `ProcessClipSpaceTriangle` for each clip plane index 0..5 (planes
`x ≥ -w`, `x ≤ w`, `y ≥ -w`, `y ≤ w`, `z ≥ -w`, `z ≤ w`).  Out-of-range
indices hit the `default:` case, which clips nothing. -/
def planeDiff (clipPlaneIndex : ℕ) (v : Vec4) : ℚ :=
  match clipPlaneIndex with
  | 0 => v.x - (-v.w)
  | 1 => v.x - v.w
  | 2 => v.y - (-v.w)
  | 3 => v.y - v.w
  | 4 => v.z - (-v.w)
  | 5 => v.z - v.w
  | _ => 0

/-- Whether the plane's inside test is `diff >= 0.0` (even plane indices)
rather than `diff <= 0.0` (odd plane indices), as in the source's
`switch`. -/
def planeGE (clipPlaneIndex : ℕ) : Bool :=
  clipPlaneIndex % 2 == 0

/-- The `isV*Inside` classification of one vertex from its diff. -/
def insideQ (ge : Bool) (d : ℚ) : Bool :=
  if ge then decide (0 ≤ d) else decide (d ≤ 0)

/-- The shared 8-way branch structure of `ProcessClipSpaceTriangle` after
the per-plane diffs and inside flags have been computed: returns the 0, 1
or 2 result triangles written to the `g_clipResult*` arrays, in order. -/
def clipCore (t : TriUV) (d0 d1 d2 : ℚ) (i0 i1 i2 : Bool) : List TriUV :=
  match i0, i1, i2 with
  | true, true, true =>
    [t]
  | true, true, false =>
    let v1v2PointT := d1 / (d1 - d2)
    let v2v0PointT := d2 / (d2 - d0)
    let v1v2Point := t.v1.lerp t.v2 v1v2PointT
    let v2v0Point := t.v2.lerp t.v0 v2v0PointT
    let v1v2PointUV := t.uv1.lerp t.uv2 v1v2PointT
    let v2v0PointUV := t.uv2.lerp t.uv0 v2v0PointT
    [⟨t.v0, t.v1, v1v2Point, t.uv0, t.uv1, v1v2PointUV⟩,
     ⟨v1v2Point, v2v0Point, t.v0, v1v2PointUV, v2v0PointUV, t.uv0⟩]
  | true, false, true =>
    let v0v1PointT := d0 / (d0 - d1)
    let v1v2PointT := d1 / (d1 - d2)
    let v0v1Point := t.v0.lerp t.v1 v0v1PointT
    let v1v2Point := t.v1.lerp t.v2 v1v2PointT
    let v0v1PointUV := t.uv0.lerp t.uv1 v0v1PointT
    let v1v2PointUV := t.uv1.lerp t.uv2 v1v2PointT
    [⟨t.v0, v0v1Point, v1v2Point, t.uv0, v0v1PointUV, v1v2PointUV⟩,
     ⟨v1v2Point, t.v2, t.v0, v1v2PointUV, t.uv2, t.uv0⟩]
  | true, false, false =>
    let v0v1PointT := d0 / (d0 - d1)
    let v2v0PointT := d2 / (d2 - d0)
    let v0v1Point := t.v0.lerp t.v1 v0v1PointT
    let v2v0Point := t.v2.lerp t.v0 v2v0PointT
    let v0v1PointUV := t.uv0.lerp t.uv1 v0v1PointT
    let v2v0PointUV := t.uv2.lerp t.uv0 v2v0PointT
    [⟨t.v0, v0v1Point, v2v0Point, t.uv0, v0v1PointUV, v2v0PointUV⟩]
  | false, true, true =>
    let v0v1PointT := d0 / (d0 - d1)
    let v2v0PointT := d2 / (d2 - d0)
    let v0v1Point := t.v0.lerp t.v1 v0v1PointT
    let v2v0Point := t.v2.lerp t.v0 v2v0PointT
    let v0v1PointUV := t.uv0.lerp t.uv1 v0v1PointT
    let v2v0PointUV := t.uv2.lerp t.uv0 v2v0PointT
    [⟨v0v1Point, t.v1, t.v2, v0v1PointUV, t.uv1, t.uv2⟩,
     ⟨t.v2, v2v0Point, v0v1Point, t.uv2, v2v0PointUV, v0v1PointUV⟩]
  | false, true, false =>
    let v0v1PointT := d0 / (d0 - d1)
    let v1v2PointT := d1 / (d1 - d2)
    let v0v1Point := t.v0.lerp t.v1 v0v1PointT
    let v1v2Point := t.v1.lerp t.v2 v1v2PointT
    let v0v1PointUV := t.uv0.lerp t.uv1 v0v1PointT
    let v1v2PointUV := t.uv1.lerp t.uv2 v1v2PointT
    [⟨v0v1Point, t.v1, v1v2Point, v0v1PointUV, t.uv1, v1v2PointUV⟩]
  | false, false, true =>
    let v1v2PointT := d1 / (d1 - d2)
    let v2v0PointT := d2 / (d2 - d0)
    let v1v2Point := t.v1.lerp t.v2 v1v2PointT
    let v2v0Point := t.v2.lerp t.v0 v2v0PointT
    let v1v2PointUV := t.uv1.lerp t.uv2 v1v2PointT
    let v2v0PointUV := t.uv2.lerp t.uv0 v2v0PointT
    [⟨v1v2Point, t.v2, v2v0Point, v1v2PointUV, t.uv2, v2v0PointUV⟩]
  | false, false, false =>
    []

/-- `swGeometry::ProcessClipSpaceTriangle`: clips one clip-space triangle
(with UVs) against one clip plane, returning the list of result triangles
(the source returns their count and leaves them in `g_clipResult*`). -/
def ProcessClipSpaceTriangle (t : TriUV) (clipPlaneIndex : ℕ) : List TriUV :=
  if clipPlaneIndex < 6 then
    clipCore t
      (planeDiff clipPlaneIndex t.v0) (planeDiff clipPlaneIndex t.v1) (planeDiff clipPlaneIndex t.v2)
      (insideQ (planeGE clipPlaneIndex) (planeDiff clipPlaneIndex t.v0))
      (insideQ (planeGE clipPlaneIndex) (planeDiff clipPlaneIndex t.v1))
      (insideQ (planeGE clipPlaneIndex) (planeDiff clipPlaneIndex t.v2))
  else
    []

/-- The clipping work-queue of `ProcessMeshForRasterization` for the
remaining planes: the pending segment `[clipListFrontIndex, clipListSize)`
of the scratch arrays, and the running `clipListSize` (1 plus every append
so far; the highest scratch index ever written is `clipListSize - 1`).
Each plane pass clips every pending triangle in order and appends the
results behind the queue, exactly as the front-index bookkeeping does. -/
def clipPlanesLoop : List ℕ → List TriUV → ℕ → List TriUV × ℕ
  | [], pending, size => (pending, size)
  | p :: ps, pending, size =>
    let appended := pending.flatMap (fun t => ProcessClipSpaceTriangle t p)
    clipPlanesLoop ps appended (size + appended.length)

/-- The six clip plane indices, in the order of the source's
`clipPlaneIndex` loop. -/
def clipPlaneIndices : List ℕ := [0, 1, 2, 3, 4, 5]

/-- One vertex-shaded triangle pushed through all six clip planes:
the final pending triangles (those appended to the clip-space mesh) and
the total number of scratch-array slots consumed, whose bound
`MAX_CLIPPED_TRIANGLE_TRIANGLES = 64` the source asserts. -/
def processTriangleAllPlanes (t : TriUV) : List TriUV × ℕ :=
  clipPlanesLoop clipPlaneIndices [t] 1

/-- The source's `MAX_CLIPPED_TRIANGLE_TRIANGLES` capacity for the
per-triangle clip scratch arrays. -/
def MAX_CLIPPED_TRIANGLE_TRIANGLES : ℕ := 64

end swGeometry

/-- C++ `std::clamp(v, lo, hi)` on doubles, as used by the shaders. -/
def cppClamp (v lo hi : ℚ) : ℚ :=
  if v < lo then lo else if hi < v then hi else v

/-- C++ `std::clamp(v, lo, hi)` on ints. -/
def cppClampInt (v lo hi : ℤ) : ℤ :=
  if v < lo then lo else if hi < v then hi else v

/-- C++ `static_cast<int>` applied to a double: truncation toward zero
(floor for nonnegative values, ceiling for negative ones). -/
def cppIntCast (q : ℚ) : ℤ :=
  if q < 0 then ⌈q⌉ else ⌊q⌋

namespace ArenaRenderUtils

/-- Modelled from the spec: `ArenaRenderUtils::PALETTE_INDEX_TRANSPARENT`,
"the transparent sentinel" of the alpha-test shaders; the header is not
among the provided sources.  No claim proved here depends on the numeric
value, only on equality with it. -/
def PALETTE_INDEX_TRANSPARENT : ℕ := 0

/-- Modelled from the spec: the lowest palette index of the "light-level"
sentinel texel range used by the ghost shader (`ArenaRenderUtils` header
not among the provided sources). -/
def PALETTE_INDEX_LIGHT_LEVEL_LOWEST : ℕ := 1

/-- Modelled from the spec: the highest palette index of the
"light-level" sentinel texel range. -/
def PALETTE_INDEX_LIGHT_LEVEL_HIGHEST : ℕ := 13

/-- Modelled from the spec: first special source palette index remapped
by the light-level opacity shader. -/
def PALETTE_INDEX_LIGHT_LEVEL_SRC1 : ℕ := 158

/-- Modelled from the spec: second special source palette index remapped
by the light-level opacity shader. -/
def PALETTE_INDEX_LIGHT_LEVEL_SRC2 : ℕ := 159

/-- Modelled from the spec: remap destination for `SRC1`. -/
def PALETTE_INDEX_LIGHT_LEVEL_DST1 : ℕ := 158

/-- Modelled from the spec: remap destination for `SRC2`. -/
def PALETTE_INDEX_LIGHT_LEVEL_DST2 : ℕ := 159

/-- Modelled from the spec: the puddle-reflection palette index tested by
the horizon-mirror shader. -/
def PALETTE_INDEX_PUDDLE_EVEN_ROW : ℕ := 30

/-- Modelled from the spec: `ArenaRenderUtils::isLightLevelTexel`,
membership of the light-level sentinel palette range. -/
def isLightLevelTexel (texel : ℕ) : Bool :=
  decide (PALETTE_INDEX_LIGHT_LEVEL_LOWEST ≤ texel) &&
    decide (texel ≤ PALETTE_INDEX_LIGHT_LEVEL_HIGHEST)

end ArenaRenderUtils

/-- The source's `TextureSamplingType` enum. -/
inductive TextureSamplingType where
  | Default
  | ScreenSpaceRepeatY
deriving DecidableEq, Repr

/-- The source's `PixelShaderType` enum, in declaration order of the
dispatch `switch` in `RasterizeTriangles`. -/
inductive PixelShaderType where
  | Opaque
  | OpaqueWithAlphaTestLayer
  | AlphaTested
  | AlphaTestedWithVariableTexCoordUMin
  | AlphaTestedWithVariableTexCoordVMin
  | AlphaTestedWithPaletteIndexLookup
  | AlphaTestedWithLightLevelColor
  | AlphaTestedWithLightLevelOpacity
  | AlphaTestedWithPreviousBrightnessLimit
  | AlphaTestedWithHorizonMirror
deriving DecidableEq, Repr

namespace swShader

/-- `swShader::PixelShaderPerspectiveCorrection`. -/
structure PixelShaderPerspectiveCorrection where
  ndcZDepth : ℚ
  texelPercentX : ℚ
  texelPercentY : ℚ
deriving DecidableEq, Repr

/-- `swShader::PixelShaderTexture`: an 8-bit texel view with its
dimensions (the `widthMinusOne`/`widthReal` caches are recomputed here
rather than stored). -/
structure PixelShaderTexture where
  texels : List ℕ
  width : ℤ
  height : ℤ
  samplingType : TextureSamplingType
deriving DecidableEq, Repr

/-- `swShader::PixelShaderLighting`: the light table and selected row. -/
structure PixelShaderLighting where
  lightTableTexels : List ℕ
  lightLevelCount : ℤ
  texelsPerLightLevel : ℤ
  lightLevel : ℤ
deriving DecidableEq, Repr

/-- `swShader::PixelShaderHorizonMirror`. -/
structure PixelShaderHorizonMirror where
  reflectedPixelIndex : ℕ
  isReflectedPixelInFrameBuffer : Bool
  fallbackSkyColor : ℕ
deriving DecidableEq, Repr

/-- `swShader::PixelShaderFrameBuffer`: the palette-index framebuffer and
depth buffer the shaders write, the palette used for 8-to-32-bit
expansion, and the current pixel. -/
structure PixelShaderFrameBuffer where
  colors : List ℕ
  depth : List ℚ
  paletteColors : List ℕ
  xPercent : ℚ
  yPercent : ℚ
  pixelIndex : ℕ
  enableDepthWrite : Bool
deriving DecidableEq, Repr

/-- Nearest-neighbor texel fetch shared by the shaders:
`texelX = clamp(int(u * widthReal), 0, widthMinusOne)` and likewise for
`texelY`, then `texels[texelX + texelY * width]`. -/
def sampleTexel (texture : PixelShaderTexture) (u v : ℚ) : ℕ :=
  let texelX := cppClampInt (cppIntCast (u * texture.width)) 0 (texture.width - 1)
  let texelY := cppClampInt (cppIntCast (v * texture.height)) 0 (texture.height - 1)
  let texelIndex := texelX + texelY * texture.width
  texture.texels.getD texelIndex.toNat 0

/-- The `ScreenSpaceRepeatY` vertical coordinate of the opaque shaders:
`v = yPercent * 2.0; actualV = v >= 1.0 ? v - 1.0 : v`. -/
def screenSpaceRepeatV (yPercent : ℚ) : ℚ :=
  let v := yPercent * 2
  if 1 ≤ v then v - 1 else v

/-- The store step shared by every shader that draws: write the palette index
into the index framebuffer and, when depth write is enabled, the NDC
depth into the depth buffer (the tail of each `PixelShader_*`). -/
def storeShaderResult (ndcZDepth : ℚ) (value : ℕ)
    (frameBuffer : PixelShaderFrameBuffer) : PixelShaderFrameBuffer :=
  { frameBuffer with
    colors := frameBuffer.colors.set frameBuffer.pixelIndex value
    depth :=
      if frameBuffer.enableDepthWrite then
        frameBuffer.depth.set frameBuffer.pixelIndex ndcZDepth
      else
        frameBuffer.depth }

/-- The light-table lookup `lightTableTexels[texel + lightLevel * texelsPerLightLevel]`. -/
def lightTableLookup (lighting : PixelShaderLighting) (texel : ℕ) : ℕ :=
  lighting.lightTableTexels.getD ((texel + lighting.lightLevel * lighting.texelsPerLightLevel).toNat) 0

/-- `swShader::PixelShader_Opaque`. -/
def PixelShader_Opaque (perspective : PixelShaderPerspectiveCorrection)
    (texture : PixelShaderTexture) (lighting : PixelShaderLighting)
    (frameBuffer : PixelShaderFrameBuffer) : PixelShaderFrameBuffer :=
  let texel :=
    match texture.samplingType with
    | TextureSamplingType.Default =>
      sampleTexel texture perspective.texelPercentX perspective.texelPercentY
    | TextureSamplingType.ScreenSpaceRepeatY =>
      sampleTexel texture frameBuffer.xPercent (screenSpaceRepeatV frameBuffer.yPercent)
  storeShaderResult perspective.ndcZDepth (lightTableLookup lighting texel) frameBuffer

/-- `swShader::PixelShader_OpaqueWithAlphaTestLayer`: the overlay texture
is sampled with perspective UVs; a transparent overlay texel falls back to
the screen-space-sampled opaque texture. -/
def PixelShader_OpaqueWithAlphaTestLayer (perspective : PixelShaderPerspectiveCorrection)
    (opaqueTexture alphaTestTexture : PixelShaderTexture) (lighting : PixelShaderLighting)
    (frameBuffer : PixelShaderFrameBuffer) : PixelShaderFrameBuffer :=
  let layerTexel := sampleTexel alphaTestTexture perspective.texelPercentX perspective.texelPercentY
  let texel :=
    if layerTexel = ArenaRenderUtils.PALETTE_INDEX_TRANSPARENT then
      sampleTexel opaqueTexture frameBuffer.xPercent (screenSpaceRepeatV frameBuffer.yPercent)
    else
      layerTexel
  storeShaderResult perspective.ndcZDepth (lightTableLookup lighting texel) frameBuffer

/-- `swShader::PixelShader_AlphaTested`: discards the pixel (no color, no
depth write) when the sampled texel is the transparent sentinel. -/
def PixelShader_AlphaTested (perspective : PixelShaderPerspectiveCorrection)
    (texture : PixelShaderTexture) (lighting : PixelShaderLighting)
    (frameBuffer : PixelShaderFrameBuffer) : PixelShaderFrameBuffer :=
  let texel := sampleTexel texture perspective.texelPercentX perspective.texelPercentY
  if texel = ArenaRenderUtils.PALETTE_INDEX_TRANSPARENT then
    frameBuffer
  else
    storeShaderResult perspective.ndcZDepth (lightTableLookup lighting texel) frameBuffer

/-- The remapped horizontal texture coordinate of
`PixelShader_AlphaTestedWithVariableTexCoordUMin`:
`clamp(uMin + (1 - uMin) * u, uMin, 1)`. -/
def variableTexCoordRemap (tmin t : ℚ) : ℚ :=
  cppClamp (tmin + (1 - tmin) * t) tmin 1

/-- `swShader::PixelShader_AlphaTestedWithVariableTexCoordUMin`. -/
def PixelShader_AlphaTestedWithVariableTexCoordUMin (perspective : PixelShaderPerspectiveCorrection)
    (texture : PixelShaderTexture) (uMin : ℚ) (lighting : PixelShaderLighting)
    (frameBuffer : PixelShaderFrameBuffer) : PixelShaderFrameBuffer :=
  let texel := sampleTexel texture (variableTexCoordRemap uMin perspective.texelPercentX)
    perspective.texelPercentY
  if texel = ArenaRenderUtils.PALETTE_INDEX_TRANSPARENT then
    frameBuffer
  else
    storeShaderResult perspective.ndcZDepth (lightTableLookup lighting texel) frameBuffer

/-- `swShader::PixelShader_AlphaTestedWithVariableTexCoordVMin`. -/
def PixelShader_AlphaTestedWithVariableTexCoordVMin (perspective : PixelShaderPerspectiveCorrection)
    (texture : PixelShaderTexture) (vMin : ℚ) (lighting : PixelShaderLighting)
    (frameBuffer : PixelShaderFrameBuffer) : PixelShaderFrameBuffer :=
  let texel := sampleTexel texture perspective.texelPercentX
    (variableTexCoordRemap vMin perspective.texelPercentY)
  if texel = ArenaRenderUtils.PALETTE_INDEX_TRANSPARENT then
    frameBuffer
  else
    storeShaderResult perspective.ndcZDepth (lightTableLookup lighting texel) frameBuffer

/-- `swShader::PixelShader_AlphaTestedWithPaletteIndexLookup`: after the
alpha test, the sampled texel is indirected through the lookup texture. -/
def PixelShader_AlphaTestedWithPaletteIndexLookup (perspective : PixelShaderPerspectiveCorrection)
    (texture lookupTexture : PixelShaderTexture) (lighting : PixelShaderLighting)
    (frameBuffer : PixelShaderFrameBuffer) : PixelShaderFrameBuffer :=
  let texel := sampleTexel texture perspective.texelPercentX perspective.texelPercentY
  if texel = ArenaRenderUtils.PALETTE_INDEX_TRANSPARENT then
    frameBuffer
  else
    let replacementTexel := lookupTexture.texels.getD texel 0
    storeShaderResult perspective.ndcZDepth (lightTableLookup lighting replacementTexel) frameBuffer

/-- `swShader::PixelShader_AlphaTestedWithLightLevelColor`. -/
def PixelShader_AlphaTestedWithLightLevelColor (perspective : PixelShaderPerspectiveCorrection)
    (texture : PixelShaderTexture) (lighting : PixelShaderLighting)
    (frameBuffer : PixelShaderFrameBuffer) : PixelShaderFrameBuffer :=
  let texel := sampleTexel texture perspective.texelPercentX perspective.texelPercentY
  if texel = ArenaRenderUtils.PALETTE_INDEX_TRANSPARENT then
    frameBuffer
  else
    storeShaderResult perspective.ndcZDepth (lightTableLookup lighting texel) frameBuffer

/-- `swShader::PixelShader_AlphaTestedWithLightLevelOpacity`: light-level
sentinel texels blend with the existing framebuffer pixel instead of
sampling a real color. -/
def PixelShader_AlphaTestedWithLightLevelOpacity (perspective : PixelShaderPerspectiveCorrection)
    (texture : PixelShaderTexture) (lighting : PixelShaderLighting)
    (frameBuffer : PixelShaderFrameBuffer) : PixelShaderFrameBuffer :=
  let texel := sampleTexel texture perspective.texelPercentX perspective.texelPercentY
  if texel = ArenaRenderUtils.PALETTE_INDEX_TRANSPARENT then
    frameBuffer
  else
    let lightTableTexelIndex : ℤ :=
      if ArenaRenderUtils.isLightLevelTexel texel then
        let lightLevel : ℤ := (texel : ℤ) - ArenaRenderUtils.PALETTE_INDEX_LIGHT_LEVEL_LOWEST
        let prevFrameBufferPixel := frameBuffer.colors.getD frameBuffer.pixelIndex 0
        (prevFrameBufferPixel : ℤ) + lightLevel * lighting.texelsPerLightLevel
      else
        let lightTableOffset := lighting.lightLevel * lighting.texelsPerLightLevel
        if texel = ArenaRenderUtils.PALETTE_INDEX_LIGHT_LEVEL_SRC1 then
          lightTableOffset + ArenaRenderUtils.PALETTE_INDEX_LIGHT_LEVEL_DST1
        else if texel = ArenaRenderUtils.PALETTE_INDEX_LIGHT_LEVEL_SRC2 then
          lightTableOffset + ArenaRenderUtils.PALETTE_INDEX_LIGHT_LEVEL_DST2
        else
          lightTableOffset + texel
    let resultTexel := lighting.lightTableTexels.getD lightTableTexelIndex.toNat 0
    storeShaderResult perspective.ndcZDepth resultTexel frameBuffer

/-- The `isDarkEnough` gate of
`PixelShader_AlphaTestedWithPreviousBrightnessLimit`: all RGB components
of the existing framebuffer color masked by `~0x3F` must be zero. -/
def isDarkEnough (prevFrameBufferColor : ℕ) : Bool :=
  decide (prevFrameBufferColor % 2 ^ 32 &&& 0xC0C0C0 = 0)

/-- `swShader::PixelShader_AlphaTestedWithPreviousBrightnessLimit`: only
draws over sufficiently dark pixels, with no light-table shading. -/
def PixelShader_AlphaTestedWithPreviousBrightnessLimit
    (perspective : PixelShaderPerspectiveCorrection) (texture : PixelShaderTexture)
    (frameBuffer : PixelShaderFrameBuffer) : PixelShaderFrameBuffer :=
  let prevFrameBufferPixel := frameBuffer.colors.getD frameBuffer.pixelIndex 0
  let prevFrameBufferColor := frameBuffer.paletteColors.getD prevFrameBufferPixel 0
  if !isDarkEnough prevFrameBufferColor then
    frameBuffer
  else
    let texel := sampleTexel texture perspective.texelPercentX perspective.texelPercentY
    if texel = ArenaRenderUtils.PALETTE_INDEX_TRANSPARENT then
      frameBuffer
    else
      storeShaderResult perspective.ndcZDepth texel frameBuffer

/-- `swShader::PixelShader_AlphaTestedWithHorizonMirror`: reflective
puddle texels copy the mirrored framebuffer pixel (or the fallback sky
color); other texels shade normally. -/
def PixelShader_AlphaTestedWithHorizonMirror (perspective : PixelShaderPerspectiveCorrection)
    (texture : PixelShaderTexture) (horizon : PixelShaderHorizonMirror)
    (lighting : PixelShaderLighting) (frameBuffer : PixelShaderFrameBuffer) :
    PixelShaderFrameBuffer :=
  let texel := sampleTexel texture perspective.texelPercentX perspective.texelPercentY
  if texel = ArenaRenderUtils.PALETTE_INDEX_TRANSPARENT then
    frameBuffer
  else
    let resultTexel :=
      if texel = ArenaRenderUtils.PALETTE_INDEX_PUDDLE_EVEN_ROW then
        if horizon.isReflectedPixelInFrameBuffer then
          frameBuffer.colors.getD horizon.reflectedPixelIndex 0
        else
          horizon.fallbackSkyColor
      else
        lightTableLookup lighting texel
    storeShaderResult perspective.ndcZDepth resultTexel frameBuffer

end swShader

namespace swRender

/-- The per-light intensity computed inside the per-pixel lighting loop of
`RasterizeTriangles`, as a function of the light's radii and the distance
from the shaded world-space point to the light: `1.0` when
`lightDistance <= startRadius`, `0.0` when `lightDistance >= endRadius`,
and the clamped linear ramp in between. -/
def lightFalloff (startRadius endRadius lightDistance : ℚ) : ℚ :=
  if lightDistance ≤ startRadius then 1
  else if endRadius ≤ lightDistance then 0
  else cppClamp (1 - (lightDistance - startRadius) / (endRadius - startRadius)) 0 1

/-- The accumulation loop over the draw call's lights: each light's
falloff is added to the running sum, and the loop exits early with the
sum clamped to `1.0` as soon as it reaches `1.0`.  Each list entry is one
light's `(startRadius, endRadius, distance-to-shaded-point)`. -/
def accumulateLightIntensitySum : ℚ → List (ℚ × ℚ × ℚ) → ℚ
  | lightIntensitySum, [] => lightIntensitySum
  | lightIntensitySum, (startRadius, endRadius, lightDistance) :: rest =>
    let acc := lightIntensitySum + lightFalloff startRadius endRadius lightDistance
    if 1 ≤ acc then 1 else accumulateLightIntensitySum acc rest

/-- The intensity-to-light-table-row mapping of `RasterizeTriangles`:
`lightLevel = (lightLevelCount - 1) - clamp(int(lightIntensitySum * lightLevelCountReal), 0, lightLevelCount - 1)`. -/
def lightLevelFromIntensity (lightIntensitySum : ℚ) (lightLevelCount : ℤ) : ℤ :=
  (lightLevelCount - 1) -
    cppClampInt (cppIntCast (lightIntensitySum * (lightLevelCount : ℚ))) 0 (lightLevelCount - 1)

/-- The light-level mapping as the spec words it, for comparison with the
code path: `(levelCount − 1) − clamp(intensity · levelCount, 0, levelCount − 1)`,
the clamped value read as the integer part of the product. -/
def specLightLevelRow (intensity : ℚ) (levelCount : ℤ) : ℤ :=
  (levelCount - 1) - max 0 (min (levelCount - 1) ⌊intensity * (levelCount : ℚ)⌋)

/-- The dither adjustment applied when `shouldDither` holds:
`lightLevel = min(lightLevel + 1, lightLevelCount - 1)`. -/
def ditherAdjustLightLevel (lightLevel lightLevelCount : ℤ) : ℤ :=
  min (lightLevel + 1) (lightLevelCount - 1)

/-- The pixel-shader dispatch `switch` of `RasterizeTriangles`, applied to
one covered, depth-passing pixel. -/
def applyPixelShader (pixelShaderType : PixelShaderType)
    (perspective : swShader.PixelShaderPerspectiveCorrection)
    (texture0 texture1 : swShader.PixelShaderTexture) (pixelShaderParam0 : ℚ)
    (horizon : swShader.PixelShaderHorizonMirror) (lighting : swShader.PixelShaderLighting)
    (frameBuffer : swShader.PixelShaderFrameBuffer) : swShader.PixelShaderFrameBuffer :=
  match pixelShaderType with
  | PixelShaderType.Opaque =>
    swShader.PixelShader_Opaque perspective texture0 lighting frameBuffer
  | PixelShaderType.OpaqueWithAlphaTestLayer =>
    swShader.PixelShader_OpaqueWithAlphaTestLayer perspective texture0 texture1 lighting frameBuffer
  | PixelShaderType.AlphaTested =>
    swShader.PixelShader_AlphaTested perspective texture0 lighting frameBuffer
  | PixelShaderType.AlphaTestedWithVariableTexCoordUMin =>
    swShader.PixelShader_AlphaTestedWithVariableTexCoordUMin perspective texture0 pixelShaderParam0
      lighting frameBuffer
  | PixelShaderType.AlphaTestedWithVariableTexCoordVMin =>
    swShader.PixelShader_AlphaTestedWithVariableTexCoordVMin perspective texture0 pixelShaderParam0
      lighting frameBuffer
  | PixelShaderType.AlphaTestedWithPaletteIndexLookup =>
    swShader.PixelShader_AlphaTestedWithPaletteIndexLookup perspective texture0 texture1 lighting
      frameBuffer
  | PixelShaderType.AlphaTestedWithLightLevelColor =>
    swShader.PixelShader_AlphaTestedWithLightLevelColor perspective texture0 lighting frameBuffer
  | PixelShaderType.AlphaTestedWithLightLevelOpacity =>
    swShader.PixelShader_AlphaTestedWithLightLevelOpacity perspective texture0 lighting frameBuffer
  | PixelShaderType.AlphaTestedWithPreviousBrightnessLimit =>
    swShader.PixelShader_AlphaTestedWithPreviousBrightnessLimit perspective texture0 frameBuffer
  | PixelShaderType.AlphaTestedWithHorizonMirror =>
    swShader.PixelShader_AlphaTestedWithHorizonMirror perspective texture0 horizon lighting
      frameBuffer

/-- The unconditional epilogue after the dispatch `switch`: the palette
index at the current pixel is expanded through the palette into the
32-bit color buffer and one color write is counted, whether or not the
shader drew anything. -/
def writeColorBufferPixel (frameBuffer : swShader.PixelShaderFrameBuffer)
    (colorBuffer : List ℕ) (totalColorWrites : ℕ) : List ℕ × ℕ :=
  let writtenPaletteIndex := frameBuffer.colors.getD frameBuffer.pixelIndex 0
  (colorBuffer.set frameBuffer.pixelIndex (frameBuffer.paletteColors.getD writtenPaletteIndex 0),
    totalColorWrites + 1)

/-- One covered, depth-passing pixel of `RasterizeTriangles`: run the
selected pixel shader, then unconditionally expand the current palette
index into the color buffer and count a color write.  Returns the updated
shader framebuffer, the updated 32-bit color buffer, and the updated
color-write counter. -/
def rasterizePixel (pixelShaderType : PixelShaderType)
    (perspective : swShader.PixelShaderPerspectiveCorrection)
    (texture0 texture1 : swShader.PixelShaderTexture) (pixelShaderParam0 : ℚ)
    (horizon : swShader.PixelShaderHorizonMirror) (lighting : swShader.PixelShaderLighting)
    (frameBuffer : swShader.PixelShaderFrameBuffer) (colorBuffer : List ℕ)
    (totalColorWrites : ℕ) : swShader.PixelShaderFrameBuffer × List ℕ × ℕ :=
  let frameBuffer2 := applyPixelShader pixelShaderType perspective texture0 texture1
    pixelShaderParam0 horizon lighting frameBuffer
  let tail := writeColorBufferPixel frameBuffer2 colorBuffer totalColorWrites
  (frameBuffer2, tail.1, tail.2)

end swRender

/-- The `AlphaTested*` pixel-shader variants named by the alpha-test
transparency property (`OpaqueWithAlphaTestLayer` is not one of them: its
transparent overlay falls back to the opaque base texture). -/
def isAlphaTestedVariant : PixelShaderType → Bool
  | PixelShaderType.AlphaTested => true
  | PixelShaderType.AlphaTestedWithVariableTexCoordUMin => true
  | PixelShaderType.AlphaTestedWithVariableTexCoordVMin => true
  | PixelShaderType.AlphaTestedWithPaletteIndexLookup => true
  | PixelShaderType.AlphaTestedWithLightLevelColor => true
  | PixelShaderType.AlphaTestedWithLightLevelOpacity => true
  | PixelShaderType.AlphaTestedWithPreviousBrightnessLimit => true
  | PixelShaderType.AlphaTestedWithHorizonMirror => true
  | _ => false

/-- The texel each `AlphaTested*` variant samples and tests against the
transparent sentinel (for the brightness-limit shader this is the texel
it samples once its darkness gate passes). -/
def alphaTestSampledTexel (pixelShaderType : PixelShaderType)
    (perspective : swShader.PixelShaderPerspectiveCorrection)
    (texture0 : swShader.PixelShaderTexture) (pixelShaderParam0 : ℚ) : ℕ :=
  match pixelShaderType with
  | PixelShaderType.AlphaTestedWithVariableTexCoordUMin =>
    swShader.sampleTexel texture0
      (swShader.variableTexCoordRemap pixelShaderParam0 perspective.texelPercentX)
      perspective.texelPercentY
  | PixelShaderType.AlphaTestedWithVariableTexCoordVMin =>
    swShader.sampleTexel texture0 perspective.texelPercentX
      (swShader.variableTexCoordRemap pixelShaderParam0 perspective.texelPercentY)
  | _ =>
    swShader.sampleTexel texture0 perspective.texelPercentX perspective.texelPercentY

/-- Modelled from the spec: the slot-allocated resource pool behind every
`tryCreate*` call ("slot-allocated storage ... everything else references
entries by opaque integer handle"; the pool class is not among the
provided sources).  A slot is either free (`none`) or holds a live
resource. -/
structure Pool (α : Type) where
  slots : List (Option α)
deriving DecidableEq, Repr

/-- Modelled from the spec: whether the pool is exhausted (no free slot
remains), the failure condition of `tryAlloc`. -/
def Pool.isExhausted (p : Pool α) : Bool :=
  (p.slots.findIdx? Option.isNone).isNone

/-- Modelled from the spec: `tryAlloc(outID)` claims the first free slot
with a default-constructed resource and returns its handle, or fails when
the pool is exhausted. -/
def Pool.tryAlloc (p : Pool α) (value : α) : Option (ℕ × Pool α) :=
  match p.slots.findIdx? Option.isNone with
  | some i => some (i, ⟨p.slots.set i (some value)⟩)
  | none => none

/-- Pool lookup by handle, the source's `pool.get(id)` (undefined for a
freed or out-of-range handle; modelled as `none` there). -/
def Pool.get? (p : Pool α) (id : ℕ) : Option α :=
  (p.slots.getD id none)

/-- Replacing the resource at a live handle. -/
def Pool.setAt (p : Pool α) (id : ℕ) (value : α) : Pool α :=
  ⟨p.slots.set id (some value)⟩

namespace SoftwareRenderer

/-- `SoftwareRenderer::VertexBuffer`: a flat array of
`vertexCount * componentsPerVertex` doubles. -/
structure VertexBuffer where
  vertices : List ℚ
deriving DecidableEq, Repr

/-- `SoftwareRenderer::AttributeBuffer`. -/
structure AttributeBuffer where
  attributes : List ℚ
deriving DecidableEq, Repr

/-- `SoftwareRenderer::IndexBuffer`: 32-bit indices. -/
structure IndexBuffer where
  indices : List ℤ
deriving DecidableEq, Repr

/-- `SoftwareRenderer::ObjectTexture` after `init`: a zero-filled byte
buffer of `width * height * bytesPerTexel` texel bytes. -/
structure ObjectTexture where
  texels : List ℕ
  width : ℤ
  height : ℤ
  bytesPerTexel : ℤ
deriving DecidableEq, Repr

/-- `UniformBuffer` as the spec's data model describes it: a typed,
element-indexed byte blob of `elementCount * sizeOfElement` valid bytes.
The class itself is not among the provided sources; `getValidByteCount`
is modelled from the spec as that product. -/
structure UniformBuffer where
  bytes : List ℕ
  elementCount : ℤ
  sizeOfElement : ℤ
deriving DecidableEq, Repr

/-- Modelled from the spec: `UniformBuffer::getValidByteCount()`, the
number of bytes `populateUniformBuffer` compares the incoming view
against. -/
def UniformBuffer.getValidByteCount (b : UniformBuffer) : ℤ :=
  b.elementCount * b.sizeOfElement

/-- `SoftwareRenderer::Light`: world-space point with the two falloff
radii, zero-initialized by its constructor. -/
structure Light where
  worldPointX : ℚ
  worldPointY : ℚ
  worldPointZ : ℚ
  startRadius : ℚ
  endRadius : ℚ
deriving DecidableEq, Repr

/-- The renderer's resource pools (the buffers the `tryCreate*`,
`populate*` and `free*` calls operate on). -/
structure State where
  vertexBuffers : Pool VertexBuffer
  attributeBuffers : Pool AttributeBuffer
  indexBuffers : Pool IndexBuffer
  objectTextures : Pool ObjectTexture
  uniformBuffers : Pool UniformBuffer
  lights : Pool Light
deriving DecidableEq, Repr

/-- `SoftwareRenderer::tryCreateVertexBuffer`: `DebugAssert`s the
dimensions (assertions only, not control flow), then allocates a slot and
`init`s it with `vertexCount * componentsPerVertex` zeroed doubles;
returns no handle exactly when `tryAlloc` fails. -/
def tryCreateVertexBuffer (r : State) (vertexCount componentsPerVertex : ℤ) :
    Option ℕ × State :=
  match r.vertexBuffers.tryAlloc ⟨List.replicate (vertexCount * componentsPerVertex).toNat 0⟩ with
  | none => (none, r)
  | some (id, pool) => (some id, { r with vertexBuffers := pool })

/-- `SoftwareRenderer::tryCreateAttributeBuffer`. -/
def tryCreateAttributeBuffer (r : State) (vertexCount componentsPerVertex : ℤ) :
    Option ℕ × State :=
  match r.attributeBuffers.tryAlloc ⟨List.replicate (vertexCount * componentsPerVertex).toNat 0⟩ with
  | none => (none, r)
  | some (id, pool) => (some id, { r with attributeBuffers := pool })

/-- `SoftwareRenderer::tryCreateIndexBuffer`: the index-count positivity
and divisibility by 3 are `DebugAssert`ed only. -/
def tryCreateIndexBuffer (r : State) (indexCount : ℤ) : Option ℕ × State :=
  match r.indexBuffers.tryAlloc ⟨List.replicate indexCount.toNat 0⟩ with
  | none => (none, r)
  | some (id, pool) => (some id, { r with indexBuffers := pool })

/-- `SoftwareRenderer::tryCreateObjectTexture(width, height,
bytesPerTexel)`: allocates a slot and `init`s a zero-filled texture; the
dimension positivity checks inside `ObjectTexture::init` are
`DebugAssert`s only. -/
def tryCreateObjectTexture (r : State) (width height bytesPerTexel : ℤ) : Option ℕ × State :=
  match r.objectTextures.tryAlloc
      ⟨List.replicate (width * height * bytesPerTexel).toNat 0, width, height, bytesPerTexel⟩ with
  | none => (none, r)
  | some (id, pool) => (some id, { r with objectTextures := pool })

/-- `SoftwareRenderer::tryCreateUniformBuffer`. -/
def tryCreateUniformBuffer (r : State) (elementCount sizeOfElement : ℤ) : Option ℕ × State :=
  match r.uniformBuffers.tryAlloc
      ⟨List.replicate (elementCount * sizeOfElement).toNat 0, elementCount, sizeOfElement⟩ with
  | none => (none, r)
  | some (id, pool) => (some id, { r with uniformBuffers := pool })

/-- `SoftwareRenderer::tryCreateLight`: allocates a default-constructed
light. -/
def tryCreateLight (r : State) : Option ℕ × State :=
  match r.lights.tryAlloc ⟨0, 0, 0, 0, 0⟩ with
  | none => (none, r)
  | some (id, pool) => (some id, { r with lights := pool })

/-- C++ `std::copy(src.begin(), src.end(), dst.begin())` over a flat
buffer: overwrites the first `src.length` elements and keeps the rest. -/
def copyIntoBuffer (dst src : List α) : List α :=
  src ++ dst.drop src.length

/-- `SoftwareRenderer::populateVertexBuffer`: logs an error and skips the
copy when the incoming count differs from the allocated count (the
returned flag is true exactly when the mismatch error is logged). -/
def populateVertexBuffer (r : State) (id : ℕ) (data : List ℚ) : State × Bool :=
  match r.vertexBuffers.get? id with
  | none => (r, false)
  | some buffer =>
    if data.length ≠ buffer.vertices.length then
      (r, true)
    else
      ({ r with vertexBuffers := r.vertexBuffers.setAt id ⟨copyIntoBuffer buffer.vertices data⟩ },
        false)

/-- `SoftwareRenderer::populateAttributeBuffer`. -/
def populateAttributeBuffer (r : State) (id : ℕ) (data : List ℚ) : State × Bool :=
  match r.attributeBuffers.get? id with
  | none => (r, false)
  | some buffer =>
    if data.length ≠ buffer.attributes.length then
      (r, true)
    else
      ({ r with
          attributeBuffers := r.attributeBuffers.setAt id ⟨copyIntoBuffer buffer.attributes data⟩ },
        false)

/-- `SoftwareRenderer::populateIndexBuffer`. -/
def populateIndexBuffer (r : State) (id : ℕ) (data : List ℤ) : State × Bool :=
  match r.indexBuffers.get? id with
  | none => (r, false)
  | some buffer =>
    if data.length ≠ buffer.indices.length then
      (r, true)
    else
      ({ r with indexBuffers := r.indexBuffers.setAt id ⟨copyIntoBuffer buffer.indices data⟩ },
        false)

/-- `SoftwareRenderer::populateUniformBuffer`: the incoming byte count is
compared against `getValidByteCount`. -/
def populateUniformBuffer (r : State) (id : ℕ) (data : List ℕ) : State × Bool :=
  match r.uniformBuffers.get? id with
  | none => (r, false)
  | some buffer =>
    if (data.length : ℤ) ≠ buffer.getValidByteCount then
      (r, true)
    else
      ({ r with
          uniformBuffers := r.uniformBuffers.setAt id
            ⟨copyIntoBuffer buffer.bytes data, buffer.elementCount, buffer.sizeOfElement⟩ },
        false)

end SoftwareRenderer

/-- The doubled signed area of a clip-space triangle after projection
(perspective divide): the cross product of the projected edge vectors,
whose sign the winding-preservation property is about. -/
def projectedSignedArea (a b c : Vec4) : ℚ :=
  (b.x / b.w - a.x / a.w) * (c.y / c.w - a.y / a.w) -
    (b.y / b.w - a.y / a.w) * (c.x / c.w - a.x / a.w)

/-- The homogeneous 2D determinant of the x, y, w rows of three
clip-space vertices; `projectedSignedArea` equals it divided by the
product of the three w components. -/
def det3 (a b c : Vec4) : ℚ :=
  a.x * (b.y * c.w - c.y * b.w) - a.y * (b.x * c.w - c.x * b.w) + a.w * (b.x * c.y - c.x * b.y)

/-- The sign of a rational number as an integer in `{-1, 0, 1}`. -/
def ratSign (q : ℚ) : ℤ :=
  if 0 < q then 1 else if q < 0 then -1 else 0

/-- Shared zero texture coordinate for the concrete evaluation inputs. -/
def uvZero : Vec2 := ⟨0, 0⟩

/-- Concrete clip-space triangle whose work-queue clipping consumes 69
scratch slots, exceeding the asserted 64-entry capacity. -/
def exTriC6 : TriUV :=
  ⟨⟨1, 4, -1, 0⟩, ⟨-3, -3, -1, 2⟩, ⟨-1, -5, -6, 6⟩, uvZero, uvZero, uvZero⟩

/-- Concrete clip-space triangle (mixed-sign w) whose clip against plane
0 flips the projected-area sign. -/
def flipTriC5 : TriUV :=
  ⟨⟨-2, 4, 3, -3⟩, ⟨0, 4, 2, 5⟩, ⟨4, -4, 4, -5⟩, uvZero, uvZero, uvZero⟩

/-- Concrete clip-space triangle (positive w) with its single inside
vertex exactly on plane 0, which clips to a degenerate zero-area
triangle. -/
def degTriC5 : TriUV :=
  ⟨⟨-1, 0, 0, 1⟩, ⟨-2, 1, 0, 1⟩, ⟨-2, -1, 0, 1⟩, uvZero, uvZero, uvZero⟩

/-- Concrete triangle strictly inside all six clip planes. -/
def insideTriC3 : TriUV :=
  ⟨⟨0, 0, 0, 1⟩, ⟨1/2, 0, 0, 1⟩, ⟨0, 1/2, 0, 1⟩, ⟨0, 0⟩, ⟨1, 0⟩, ⟨0, 1⟩⟩

/-- Concrete triangle with all three vertices outside plane 0
(`x < -w`). -/
def outsideTriC4 : TriUV :=
  ⟨⟨-2, 0, 0, 1⟩, ⟨-3, 1, 0, 1⟩, ⟨-3, -1, 0, 1⟩, uvZero, uvZero, uvZero⟩

/-- Whether all three vertices of a triangle are classified outside the
given clip plane by the source's inside test. -/
def allOutsidePlane (i : ℕ) (t : TriUV) : Prop :=
  swGeometry.insideQ (swGeometry.planeGE i) (swGeometry.planeDiff i t.v0) = false ∧
  swGeometry.insideQ (swGeometry.planeGE i) (swGeometry.planeDiff i t.v1) = false ∧
  swGeometry.insideQ (swGeometry.planeGE i) (swGeometry.planeDiff i t.v2) = false

instance (i : ℕ) (t : TriUV) : Decidable (allOutsidePlane i t) := by
  unfold allOutsidePlane
  infer_instance

/-- Whether all three vertices of a triangle are classified inside the
given clip plane. -/
def allInsidePlane (i : ℕ) (t : TriUV) : Prop :=
  swGeometry.insideQ (swGeometry.planeGE i) (swGeometry.planeDiff i t.v0) = true ∧
  swGeometry.insideQ (swGeometry.planeGE i) (swGeometry.planeDiff i t.v1) = true ∧
  swGeometry.insideQ (swGeometry.planeGE i) (swGeometry.planeDiff i t.v2) = true

instance (i : ℕ) (t : TriUV) : Decidable (allInsidePlane i t) := by
  unfold allInsidePlane
  infer_instance

/-- Concrete fresh renderer state with one free slot in every pool. -/
def freshStateC2 : SoftwareRenderer.State :=
  ⟨⟨[none]⟩, ⟨[none]⟩, ⟨[none]⟩, ⟨[none]⟩, ⟨[none]⟩, ⟨[none]⟩⟩

/-- Concrete renderer state whose pools are all exhausted (their only
slot is live). -/
def fullStateC2 : SoftwareRenderer.State :=
  ⟨⟨[some ⟨[]⟩]⟩, ⟨[some ⟨[]⟩]⟩, ⟨[some ⟨[]⟩]⟩, ⟨[some ⟨[], 0, 0, 0⟩]⟩,
    ⟨[some ⟨[], 0, 0⟩]⟩, ⟨[some ⟨0, 0, 0, 0, 0⟩]⟩⟩

/-- Concrete renderer state holding one vertex buffer of two doubles, one
attribute buffer of two doubles, one index buffer of three indices, and
one uniform buffer of two valid bytes. -/
def popStateC9 : SoftwareRenderer.State :=
  ⟨⟨[some ⟨[0, 0]⟩]⟩, ⟨[some ⟨[0, 0]⟩]⟩, ⟨[some ⟨[0, 0, 0]⟩]⟩, ⟨[none]⟩,
    ⟨[some ⟨[0, 0], 2, 1⟩]⟩, ⟨[none]⟩⟩

/-- Concrete perspective input sampling the texture origin. -/
def exPerspC1 : swShader.PixelShaderPerspectiveCorrection := ⟨1/2, 0, 0⟩

/-- Concrete 1x1 texture holding only the transparent sentinel. -/
def exTextureC1 : swShader.PixelShaderTexture :=
  ⟨[ArenaRenderUtils.PALETTE_INDEX_TRANSPARENT], 1, 1, TextureSamplingType.Default⟩

/-- Concrete lighting state with a one-row light table. -/
def exLightingC1 : swShader.PixelShaderLighting := ⟨[5], 1, 1, 0⟩

/-- Concrete horizon-mirror state. -/
def exHorizonC1 : swShader.PixelShaderHorizonMirror := ⟨0, false, 3⟩

/-- Concrete framebuffer: palette index 0 at the only pixel, depth 42,
and a palette whose entry 0 is the nonzero color 7; the 32-bit color
buffer is cleared to 0 as at frame start. -/
def exFrameBufferC1 : swShader.PixelShaderFrameBuffer :=
  ⟨[0], [42], [7], 0, 0, 0, true⟩

theorem cppClamp_mem (v lo hi : ℚ) (h : lo ≤ hi) :
    lo ≤ cppClamp v lo hi ∧ cppClamp v lo hi ≤ hi := by
  unfold cppClamp
  split_ifs with h1 h2
  · exact ⟨le_refl lo, h⟩
  · exact ⟨h, le_refl hi⟩
  · exact ⟨le_of_not_lt h1, le_of_not_lt h2⟩

theorem lightFalloff_nonneg (s e d : ℚ) : 0 ≤ swRender.lightFalloff s e d := by
  unfold swRender.lightFalloff
  split_ifs with h1 h2
  · norm_num
  · norm_num
  · exact (cppClamp_mem _ 0 1 (by norm_num)).1

theorem lightFalloff_le_one (s e d : ℚ) : swRender.lightFalloff s e d ≤ 1 := by
  unfold swRender.lightFalloff
  split_ifs with h1 h2
  · norm_num
  · norm_num
  · exact (cppClamp_mem _ 0 1 (by norm_num)).2

theorem falloffSum_nonneg (lights : List (ℚ × ℚ × ℚ)) :
    0 ≤ (lights.map fun l => swRender.lightFalloff l.1 l.2.1 l.2.2).sum := by
  apply List.sum_nonneg
  intro x hx
  rw [List.mem_map] at hx
  obtain ⟨l, _, rfl⟩ := hx
  exact lightFalloff_nonneg _ _ _

theorem accumulateLightIntensitySum_eq_min (lights : List (ℚ × ℚ × ℚ)) :
    ∀ acc : ℚ, acc ≤ 1 →
      swRender.accumulateLightIntensitySum acc lights =
        min 1 (acc + (lights.map fun l => swRender.lightFalloff l.1 l.2.1 l.2.2).sum) := by
  induction lights with
  | nil =>
    intro acc hacc
    simp [swRender.accumulateLightIntensitySum, min_eq_right hacc]
  | cons l rest ih =>
    intro acc hacc
    obtain ⟨s, e, d⟩ := l
    simp only [swRender.accumulateLightIntensitySum]
    split_ifs with h1
    · have hrest := falloffSum_nonneg rest
      rw [List.map_cons, List.sum_cons]
      rw [min_eq_left (by linarith)]
    · have h2 : acc + swRender.lightFalloff s e d ≤ 1 := le_of_not_le h1
      rw [ih _ h2, List.map_cons, List.sum_cons]
      ring_nf

/-- C7: the per-light falloff is exactly 1 inside `startRadius`, exactly
0 at and beyond `endRadius`, the linear ramp
`1 − (distance − startRadius)/(endRadius − startRadius)` strictly in
between (in particular `1/2` at distance 4 for radii 2 and 6), and the
accumulated ambient-plus-lights sum is clamped at 1. -/
theorem C7_light_falloff (startRadius endRadius lightDistance ambientPercent : ℚ)
    (lights : List (ℚ × ℚ × ℚ)) (hse : startRadius < endRadius) (hamb : ambientPercent ≤ 1) :
    (lightDistance ≤ startRadius → swRender.lightFalloff startRadius endRadius lightDistance = 1) ∧
    (endRadius ≤ lightDistance → swRender.lightFalloff startRadius endRadius lightDistance = 0) ∧
    (startRadius < lightDistance → lightDistance < endRadius →
      swRender.lightFalloff startRadius endRadius lightDistance =
        1 - (lightDistance - startRadius) / (endRadius - startRadius)) ∧
    swRender.lightFalloff 2 6 4 = 1/2 ∧
    swRender.accumulateLightIntensitySum ambientPercent lights =
      min 1 (ambientPercent +
        (lights.map fun l => swRender.lightFalloff l.1 l.2.1 l.2.2).sum) := by
  refine ⟨?_, ?_, ?_, ?_, ?_⟩
  · intro h
    simp [swRender.lightFalloff, h]
  · intro h
    have h1 : ¬(lightDistance ≤ startRadius) := by linarith
    simp [swRender.lightFalloff, h1, h]
  · intro hlo hhi
    have h1 : ¬(lightDistance ≤ startRadius) := by linarith
    have h2 : ¬(endRadius ≤ lightDistance) := by linarith
    have hden : 0 < endRadius - startRadius := by linarith
    have hnum : 0 < lightDistance - startRadius := by linarith
    have hq1 : (lightDistance - startRadius) / (endRadius - startRadius) < 1 :=
      (div_lt_one hden).2 (by linarith)
    have hq0 : 0 < (lightDistance - startRadius) / (endRadius - startRadius) :=
      div_pos hnum hden
    simp only [swRender.lightFalloff, h1, h2, if_false, cppClamp]
    split_ifs with c1 c2
    · linarith
    · linarith
    · rfl
  · norm_num [swRender.lightFalloff, cppClamp]
  · exact accumulateLightIntensitySum_eq_min lights ambientPercent hamb

/-- Witness for C7: falloff 1 inside the start radius, 0 beyond the end
radius, the exact ramp value between, 1/2 at distance 4, and the clamped
accumulation for ambient 1/2 with one light at distance 4. -/
theorem C7_light_falloff_witness :
    swRender.lightFalloff 2 6 1 = 1 ∧
    swRender.lightFalloff 2 6 7 = 0 ∧
    swRender.lightFalloff 2 6 3 = 1 - ((3 : ℚ) - 2) / (6 - 2) ∧
    swRender.lightFalloff 2 6 4 = 1/2 ∧
    swRender.accumulateLightIntensitySum (1/2) [(2, 6, 4)] =
      min 1 (1/2 + ([((2 : ℚ), (6 : ℚ), (4 : ℚ))].map
        fun l => swRender.lightFalloff l.1 l.2.1 l.2.2).sum) := by
  refine ⟨?_, ?_, ?_, ?_, ?_⟩
  · exact (C7_light_falloff 2 6 1 (1/2) [(2, 6, 4)] (by norm_num) (by norm_num)).1 (by norm_num)
  · exact (C7_light_falloff 2 6 7 (1/2) [(2, 6, 4)] (by norm_num) (by norm_num)).2.1 (by norm_num)
  · exact (C7_light_falloff 2 6 3 (1/2) [(2, 6, 4)] (by norm_num) (by norm_num)).2.2.1
      (by norm_num) (by norm_num)
  · exact (C7_light_falloff 2 6 3 (1/2) [(2, 6, 4)] (by norm_num) (by norm_num)).2.2.2.1
  · exact (C7_light_falloff 2 6 3 (1/2) [(2, 6, 4)] (by norm_num) (by norm_num)).2.2.2.2

theorem cppClampInt_bounds (v lo hi : ℤ) (h : lo ≤ hi) :
    lo ≤ cppClampInt v lo hi ∧ cppClampInt v lo hi ≤ hi := by
  unfold cppClampInt
  split_ifs <;> omega

theorem cppClampInt_cast_eq_clamped_floor (q : ℚ) (m : ℤ) (hm : 0 ≤ m) :
    cppClampInt (cppIntCast q) 0 m = max 0 (min m ⌊q⌋) := by
  unfold cppIntCast
  split_ifs with hq
  · have h1 : ⌈q⌉ ≤ 0 := Int.ceil_le.mpr (by exact_mod_cast hq.le)
    have h2 : ⌊q⌋ < 0 := Int.floor_lt.2 (by exact_mod_cast hq)
    unfold cppClampInt
    split_ifs <;> omega
  · have h3 : 0 ≤ ⌊q⌋ := Int.floor_nonneg.2 (le_of_not_lt hq)
    unfold cppClampInt
    split_ifs <;> omega

/-- C8: the discrete light-level row is exactly the spec's
`(levelCount−1) − clamp(intensity·levelCount, 0, levelCount−1)` formula;
higher intensity never selects a higher (darker) row, and intensity 0
selects row `levelCount − 1`. -/
theorem C8_light_level_mapping (lightLevelCount : ℤ) (hc : 1 ≤ lightLevelCount) :
    (∀ intensity : ℚ,
      swRender.lightLevelFromIntensity intensity lightLevelCount =
        swRender.specLightLevelRow intensity lightLevelCount) ∧
    (∀ intensity1 intensity2 : ℚ, intensity1 ≤ intensity2 →
      swRender.lightLevelFromIntensity intensity2 lightLevelCount ≤
        swRender.lightLevelFromIntensity intensity1 lightLevelCount) ∧
    swRender.lightLevelFromIntensity 0 lightLevelCount = lightLevelCount - 1 := by
  have hcast : ∀ intensity : ℚ,
      swRender.lightLevelFromIntensity intensity lightLevelCount =
        swRender.specLightLevelRow intensity lightLevelCount := by
    intro intensity
    unfold swRender.lightLevelFromIntensity swRender.specLightLevelRow
    rw [cppClampInt_cast_eq_clamped_floor _ _ (by omega)]
  refine ⟨hcast, ?_, ?_⟩
  · intro i1 i2 h12
    rw [hcast i1, hcast i2]
    unfold swRender.specLightLevelRow
    have hfl : ⌊i1 * (lightLevelCount : ℚ)⌋ ≤ ⌊i2 * (lightLevelCount : ℚ)⌋ := by
      apply Int.floor_le_floor
      have hpos : (0 : ℚ) ≤ (lightLevelCount : ℚ) := by exact_mod_cast (by omega : (0:ℤ) ≤ _)
      exact mul_le_mul_of_nonneg_right h12 hpos
    omega
  · rw [hcast 0]
    unfold swRender.specLightLevelRow
    norm_num

/-- Witness for C8 at a 13-row light table: the code and spec formulas
agree at intensity 1/2, the mapping is antitone from 1/4 to 3/4, and
intensity 0 selects row 12. -/
theorem C8_light_level_mapping_witness :
    swRender.lightLevelFromIntensity (1/2) 13 = swRender.specLightLevelRow (1/2) 13 ∧
    swRender.lightLevelFromIntensity (3/4) 13 ≤ swRender.lightLevelFromIntensity (1/4) 13 ∧
    swRender.lightLevelFromIntensity 0 13 = 12 := by
  refine ⟨?_, ?_, ?_⟩
  · exact (C8_light_level_mapping 13 (by norm_num)).1 (1/2)
  · exact (C8_light_level_mapping 13 (by norm_num)).2.1 (1/4) (3/4) (by norm_num)
  · exact (C8_light_level_mapping 13 (by norm_num)).2.2

/-- C10: with a light table of at least one row, the selected row stays
in `[0, lightLevelCount−1]` both after the intensity mapping and after
the dither bump, and the light-table lookup index stays inside the
table. -/
theorem C10_light_level_bounds (lightLevelCount : ℤ) (intensity : ℚ)
    (texel texelsPerLightLevel lightLevel : ℤ) (hc : 1 ≤ lightLevelCount) :
    (0 ≤ swRender.lightLevelFromIntensity intensity lightLevelCount ∧
      swRender.lightLevelFromIntensity intensity lightLevelCount ≤ lightLevelCount - 1) ∧
    (0 ≤ swRender.ditherAdjustLightLevel
        (swRender.lightLevelFromIntensity intensity lightLevelCount) lightLevelCount ∧
      swRender.ditherAdjustLightLevel
        (swRender.lightLevelFromIntensity intensity lightLevelCount) lightLevelCount ≤
        lightLevelCount - 1) ∧
    (0 ≤ texel → texel < texelsPerLightLevel →
      0 ≤ lightLevel → lightLevel ≤ lightLevelCount - 1 →
      0 ≤ texel + lightLevel * texelsPerLightLevel ∧
        texel + lightLevel * texelsPerLightLevel < texelsPerLightLevel * lightLevelCount) := by
  have hclamp := cppClampInt_bounds (cppIntCast (intensity * (lightLevelCount : ℚ))) 0
    (lightLevelCount - 1) (by omega)
  have hlev : 0 ≤ swRender.lightLevelFromIntensity intensity lightLevelCount ∧
      swRender.lightLevelFromIntensity intensity lightLevelCount ≤ lightLevelCount - 1 := by
    unfold swRender.lightLevelFromIntensity
    omega
  refine ⟨hlev, ?_, ?_⟩
  · unfold swRender.ditherAdjustLightLevel
    omega
  · intro ht1 ht2 hl1 hl2
    constructor
    · nlinarith
    · nlinarith

/-- Witness for C10 at a 13-row table, intensity 1/3, texel 200 of 256
per row, light level 7. -/
theorem C10_light_level_bounds_witness :
    (0 ≤ swRender.lightLevelFromIntensity (1/3) 13 ∧
      swRender.lightLevelFromIntensity (1/3) 13 ≤ 12) ∧
    (0 ≤ swRender.ditherAdjustLightLevel (swRender.lightLevelFromIntensity (1/3) 13) 13 ∧
      swRender.ditherAdjustLightLevel (swRender.lightLevelFromIntensity (1/3) 13) 13 ≤ 12) ∧
    (0 ≤ (200 : ℤ) + 7 * 256 ∧ (200 : ℤ) + 7 * 256 < 256 * 13) := by
  refine ⟨?_, ?_, ?_⟩
  · exact (C10_light_level_bounds 13 (1/3) 200 256 7 (by norm_num)).1
  · exact (C10_light_level_bounds 13 (1/3) 200 256 7 (by norm_num)).2.1
  · exact (C10_light_level_bounds 13 (1/3) 200 256 7 (by norm_num)).2.2
      (by norm_num) (by norm_num) (by norm_num) (by norm_num)

theorem copyIntoBuffer_eq_of_length_eq {α : Type} (dst src : List α)
    (h : src.length = dst.length) : SoftwareRenderer.copyIntoBuffer dst src = src := by
  unfold SoftwareRenderer.copyIntoBuffer
  rw [h, List.drop_length, List.append_nil]

/-- C9: every `populate*` call on a valid handle logs an error, copies
nothing and leaves the renderer state untouched when the incoming element
count differs from the allocated count, and on a matching count copies
every element in order into the buffer. -/
theorem C9_populate_strict (r : SoftwareRenderer.State) (id : ℕ) :
    (∀ vb : SoftwareRenderer.VertexBuffer, r.vertexBuffers.get? id = some vb →
      ∀ data : List ℚ,
        (data.length ≠ vb.vertices.length →
          SoftwareRenderer.populateVertexBuffer r id data = (r, true)) ∧
        (data.length = vb.vertices.length →
          SoftwareRenderer.populateVertexBuffer r id data =
            ({ r with vertexBuffers := r.vertexBuffers.setAt id ⟨data⟩ }, false))) ∧
    (∀ ab : SoftwareRenderer.AttributeBuffer, r.attributeBuffers.get? id = some ab →
      ∀ data : List ℚ,
        (data.length ≠ ab.attributes.length →
          SoftwareRenderer.populateAttributeBuffer r id data = (r, true)) ∧
        (data.length = ab.attributes.length →
          SoftwareRenderer.populateAttributeBuffer r id data =
            ({ r with attributeBuffers := r.attributeBuffers.setAt id ⟨data⟩ }, false))) ∧
    (∀ ib : SoftwareRenderer.IndexBuffer, r.indexBuffers.get? id = some ib →
      ∀ data : List ℤ,
        (data.length ≠ ib.indices.length →
          SoftwareRenderer.populateIndexBuffer r id data = (r, true)) ∧
        (data.length = ib.indices.length →
          SoftwareRenderer.populateIndexBuffer r id data =
            ({ r with indexBuffers := r.indexBuffers.setAt id ⟨data⟩ }, false))) ∧
    (∀ ub : SoftwareRenderer.UniformBuffer, r.uniformBuffers.get? id = some ub →
      ∀ data : List ℕ,
        ((data.length : ℤ) ≠ ub.getValidByteCount →
          SoftwareRenderer.populateUniformBuffer r id data = (r, true)) ∧
        ((data.length : ℤ) = ub.getValidByteCount →
          SoftwareRenderer.populateUniformBuffer r id data =
            ({ r with
                uniformBuffers := r.uniformBuffers.setAt id
                  ⟨SoftwareRenderer.copyIntoBuffer ub.bytes data, ub.elementCount,
                    ub.sizeOfElement⟩ }, false) ∧
          (SoftwareRenderer.copyIntoBuffer ub.bytes data).take data.length = data)) := by
  refine ⟨?_, ?_, ?_, ?_⟩
  · intro vb hvb data
    constructor
    · intro hne
      simp [SoftwareRenderer.populateVertexBuffer, hvb, hne]
    · intro heq
      have hcopy := copyIntoBuffer_eq_of_length_eq vb.vertices data heq
      simp [SoftwareRenderer.populateVertexBuffer, hvb, heq, hcopy]
  · intro ab hab data
    constructor
    · intro hne
      simp [SoftwareRenderer.populateAttributeBuffer, hab, hne]
    · intro heq
      have hcopy := copyIntoBuffer_eq_of_length_eq ab.attributes data heq
      simp [SoftwareRenderer.populateAttributeBuffer, hab, heq, hcopy]
  · intro ib hib data
    constructor
    · intro hne
      simp [SoftwareRenderer.populateIndexBuffer, hib, hne]
    · intro heq
      have hcopy := copyIntoBuffer_eq_of_length_eq ib.indices data heq
      simp [SoftwareRenderer.populateIndexBuffer, hib, heq, hcopy]
  · intro ub hub data
    constructor
    · intro hne
      simp [SoftwareRenderer.populateUniformBuffer, hub, hne]
    · intro heq
      refine ⟨?_, ?_⟩
      · simp [SoftwareRenderer.populateUniformBuffer, hub, heq]
      · unfold SoftwareRenderer.copyIntoBuffer
        exact List.take_left data _

/-- Witness for C9 on the concrete single-buffer state: one-element data
is rejected by the two-element buffers, matching data is copied in
order. -/
theorem C9_populate_strict_witness :
    SoftwareRenderer.populateVertexBuffer popStateC9 0 [5] = (popStateC9, true) ∧
    SoftwareRenderer.populateVertexBuffer popStateC9 0 [5, 6] =
      ({ popStateC9 with vertexBuffers := popStateC9.vertexBuffers.setAt 0 ⟨[5, 6]⟩ }, false) ∧
    SoftwareRenderer.populateAttributeBuffer popStateC9 0 [5] = (popStateC9, true) ∧
    SoftwareRenderer.populateAttributeBuffer popStateC9 0 [5, 6] =
      ({ popStateC9 with
          attributeBuffers := popStateC9.attributeBuffers.setAt 0 ⟨[5, 6]⟩ }, false) ∧
    SoftwareRenderer.populateIndexBuffer popStateC9 0 [7] = (popStateC9, true) ∧
    SoftwareRenderer.populateIndexBuffer popStateC9 0 [7, 8, 9] =
      ({ popStateC9 with indexBuffers := popStateC9.indexBuffers.setAt 0 ⟨[7, 8, 9]⟩ }, false) ∧
    SoftwareRenderer.populateUniformBuffer popStateC9 0 [9] = (popStateC9, true) ∧
    (SoftwareRenderer.populateUniformBuffer popStateC9 0 [9, 8] =
      ({ popStateC9 with
          uniformBuffers := popStateC9.uniformBuffers.setAt 0
            ⟨SoftwareRenderer.copyIntoBuffer [0, 0] [9, 8], 2, 1⟩ }, false) ∧
      (SoftwareRenderer.copyIntoBuffer ([0, 0] : List ℕ) [9, 8]).take (([9, 8] : List ℕ)).length =
        [9, 8]) := by
  refine ⟨?_, ?_, ?_, ?_, ?_, ?_, ?_, ?_⟩
  · exact (((C9_populate_strict popStateC9 0).1 ⟨[0, 0]⟩ (by decide)) [5]).1 (by decide)
  · exact (((C9_populate_strict popStateC9 0).1 ⟨[0, 0]⟩ (by decide)) [5, 6]).2 (by decide)
  · exact (((C9_populate_strict popStateC9 0).2.1 ⟨[0, 0]⟩ (by decide)) [5]).1 (by decide)
  · exact (((C9_populate_strict popStateC9 0).2.1 ⟨[0, 0]⟩ (by decide)) [5, 6]).2 (by decide)
  · exact (((C9_populate_strict popStateC9 0).2.2.1 ⟨[0, 0, 0]⟩ (by decide)) [7]).1 (by decide)
  · exact (((C9_populate_strict popStateC9 0).2.2.1 ⟨[0, 0, 0]⟩ (by decide)) [7, 8, 9]).2
      (by decide)
  · exact (((C9_populate_strict popStateC9 0).2.2.2 ⟨[0, 0], 2, 1⟩ (by decide)) [9]).1 (by decide)
  · exact (((C9_populate_strict popStateC9 0).2.2.2 ⟨[0, 0], 2, 1⟩ (by decide)) [9, 8]).2
      (by decide)

theorem Pool.tryAlloc_eq_none_iff {α : Type} (p : Pool α) (value : α) :
    p.tryAlloc value = none ↔ p.isExhausted = true := by
  unfold Pool.tryAlloc Pool.isExhausted
  cases h : p.slots.findIdx? Option.isNone <;> simp [h]

theorem Pool.isExhausted_eq_isNone_tryAlloc {α : Type} (p : Pool α) (value : α) :
    (p.isExhausted = true) = ((p.tryAlloc value).isNone = true) := by
  unfold Pool.tryAlloc Pool.isExhausted
  cases h : p.slots.findIdx? Option.isNone <;> simp [h]

/-- C2 (amended): every `tryCreate*` call fails exactly when its pool is
exhausted — the dimension `DebugAssert`s never produce a failure return —
and a failing call leaves the renderer state unchanged, allocating no
slot. -/
theorem C2_tryCreate_fails_iff_pool_exhausted (r : SoftwareRenderer.State)
    (vertexCount componentsPerVertex indexCount width height bytesPerTexel
      elementCount sizeOfElement : ℤ) :
    ((SoftwareRenderer.tryCreateVertexBuffer r vertexCount componentsPerVertex).1 = none ↔
      r.vertexBuffers.isExhausted = true) ∧
    ((SoftwareRenderer.tryCreateVertexBuffer r vertexCount componentsPerVertex).2 = r ∨
      (SoftwareRenderer.tryCreateVertexBuffer r vertexCount componentsPerVertex).1 ≠ none) ∧
    ((SoftwareRenderer.tryCreateAttributeBuffer r vertexCount componentsPerVertex).1 = none ↔
      r.attributeBuffers.isExhausted = true) ∧
    ((SoftwareRenderer.tryCreateAttributeBuffer r vertexCount componentsPerVertex).2 = r ∨
      (SoftwareRenderer.tryCreateAttributeBuffer r vertexCount componentsPerVertex).1 ≠ none) ∧
    ((SoftwareRenderer.tryCreateIndexBuffer r indexCount).1 = none ↔
      r.indexBuffers.isExhausted = true) ∧
    ((SoftwareRenderer.tryCreateIndexBuffer r indexCount).2 = r ∨
      (SoftwareRenderer.tryCreateIndexBuffer r indexCount).1 ≠ none) ∧
    ((SoftwareRenderer.tryCreateObjectTexture r width height bytesPerTexel).1 = none ↔
      r.objectTextures.isExhausted = true) ∧
    ((SoftwareRenderer.tryCreateObjectTexture r width height bytesPerTexel).2 = r ∨
      (SoftwareRenderer.tryCreateObjectTexture r width height bytesPerTexel).1 ≠ none) ∧
    ((SoftwareRenderer.tryCreateUniformBuffer r elementCount sizeOfElement).1 = none ↔
      r.uniformBuffers.isExhausted = true) ∧
    ((SoftwareRenderer.tryCreateUniformBuffer r elementCount sizeOfElement).2 = r ∨
      (SoftwareRenderer.tryCreateUniformBuffer r elementCount sizeOfElement).1 ≠ none) ∧
    ((SoftwareRenderer.tryCreateLight r).1 = none ↔ r.lights.isExhausted = true) ∧
    ((SoftwareRenderer.tryCreateLight r).2 = r ∨ (SoftwareRenderer.tryCreateLight r).1 ≠ none) := by
  refine ⟨?_, ?_, ?_, ?_, ?_, ?_, ?_, ?_, ?_, ?_, ?_, ?_⟩
  · unfold SoftwareRenderer.tryCreateVertexBuffer
    rw [Pool.isExhausted_eq_isNone_tryAlloc _
      (⟨List.replicate (vertexCount * componentsPerVertex).toNat 0⟩ :
        SoftwareRenderer.VertexBuffer)]
    split <;> simp_all
  · unfold SoftwareRenderer.tryCreateVertexBuffer
    split <;> simp_all
  · unfold SoftwareRenderer.tryCreateAttributeBuffer
    rw [Pool.isExhausted_eq_isNone_tryAlloc _
      (⟨List.replicate (vertexCount * componentsPerVertex).toNat 0⟩ :
        SoftwareRenderer.AttributeBuffer)]
    split <;> simp_all
  · unfold SoftwareRenderer.tryCreateAttributeBuffer
    split <;> simp_all
  · unfold SoftwareRenderer.tryCreateIndexBuffer
    rw [Pool.isExhausted_eq_isNone_tryAlloc _
      (⟨List.replicate indexCount.toNat 0⟩ : SoftwareRenderer.IndexBuffer)]
    split <;> simp_all
  · unfold SoftwareRenderer.tryCreateIndexBuffer
    split <;> simp_all
  · unfold SoftwareRenderer.tryCreateObjectTexture
    rw [Pool.isExhausted_eq_isNone_tryAlloc _
      (⟨List.replicate (width * height * bytesPerTexel).toNat 0, width, height, bytesPerTexel⟩ :
        SoftwareRenderer.ObjectTexture)]
    split <;> simp_all
  · unfold SoftwareRenderer.tryCreateObjectTexture
    split <;> simp_all
  · unfold SoftwareRenderer.tryCreateUniformBuffer
    rw [Pool.isExhausted_eq_isNone_tryAlloc _
      (⟨List.replicate (elementCount * sizeOfElement).toNat 0, elementCount, sizeOfElement⟩ :
        SoftwareRenderer.UniformBuffer)]
    split <;> simp_all
  · unfold SoftwareRenderer.tryCreateUniformBuffer
    split <;> simp_all
  · unfold SoftwareRenderer.tryCreateLight
    rw [Pool.isExhausted_eq_isNone_tryAlloc _
      (⟨0, 0, 0, 0, 0⟩ : SoftwareRenderer.Light)]
    split <;> simp_all
  · unfold SoftwareRenderer.tryCreateLight
    split <;> simp_all

/-- Counterexample for C2: an index count of 4 violates the
multiple-of-3 dimension rule, yet with a free pool slot the call still
succeeds and allocates — the failure return happens only on pool
exhaustion. -/
theorem C2_counterexample :
    (SoftwareRenderer.tryCreateIndexBuffer freshStateC2 4).1 = some 0 ∧
    ¬((4 : ℤ) % 3 = 0) ∧ freshStateC2.indexBuffers.isExhausted = false := by
  decide

/-- C1 (amended): under every `AlphaTested*` variant, a sampled texel
equal to the transparent sentinel leaves the palette-index buffer and the
depth buffer untouched (the shader discards), but the rasterizer loop
still re-expands the existing palette index through the palette into the
32-bit color buffer and counts one color write. -/
theorem C1_alpha_test_discard (pixelShaderType : PixelShaderType)
    (perspective : swShader.PixelShaderPerspectiveCorrection)
    (texture0 texture1 : swShader.PixelShaderTexture) (pixelShaderParam0 : ℚ)
    (horizon : swShader.PixelShaderHorizonMirror) (lighting : swShader.PixelShaderLighting)
    (frameBuffer : swShader.PixelShaderFrameBuffer) (colorBuffer : List ℕ)
    (totalColorWrites : ℕ)
    (hv : isAlphaTestedVariant pixelShaderType = true)
    (ht : alphaTestSampledTexel pixelShaderType perspective texture0 pixelShaderParam0 =
      ArenaRenderUtils.PALETTE_INDEX_TRANSPARENT) :
    swRender.rasterizePixel pixelShaderType perspective texture0 texture1 pixelShaderParam0
      horizon lighting frameBuffer colorBuffer totalColorWrites =
      (frameBuffer,
        colorBuffer.set frameBuffer.pixelIndex
          (frameBuffer.paletteColors.getD (frameBuffer.colors.getD frameBuffer.pixelIndex 0) 0),
        totalColorWrites + 1) := by
  cases pixelShaderType <;>
    simp_all [swRender.rasterizePixel, swRender.applyPixelShader,
      swRender.writeColorBufferPixel, alphaTestSampledTexel, isAlphaTestedVariant,
      swShader.PixelShader_AlphaTested, swShader.PixelShader_AlphaTestedWithVariableTexCoordUMin,
      swShader.PixelShader_AlphaTestedWithVariableTexCoordVMin,
      swShader.PixelShader_AlphaTestedWithPaletteIndexLookup,
      swShader.PixelShader_AlphaTestedWithLightLevelColor,
      swShader.PixelShader_AlphaTestedWithLightLevelOpacity,
      swShader.PixelShader_AlphaTestedWithPreviousBrightnessLimit,
      swShader.PixelShader_AlphaTestedWithHorizonMirror]

attribute [local semireducible] Rat.add Rat.sub Rat.mul Rat.inv in
/-- Witness for C1 on the concrete all-transparent texture and one-pixel
framebuffer. -/
theorem C1_alpha_test_discard_witness :
    swRender.rasterizePixel PixelShaderType.AlphaTested exPerspC1 exTextureC1 exTextureC1 0
      exHorizonC1 exLightingC1 exFrameBufferC1 [0] 0 =
      (exFrameBufferC1,
        [0].set exFrameBufferC1.pixelIndex
          (exFrameBufferC1.paletteColors.getD
            (exFrameBufferC1.colors.getD exFrameBufferC1.pixelIndex 0) 0),
        0 + 1) := by
  exact C1_alpha_test_discard PixelShaderType.AlphaTested exPerspC1 exTextureC1 exTextureC1 0
    exHorizonC1 exLightingC1 exFrameBufferC1 [0] 0 (by decide)
    (by decide)

attribute [local semireducible] Rat.add Rat.sub Rat.mul Rat.inv in
/-- Counterexample for C1 as originally stated: at the concrete
transparent pixel the 32-bit color buffer entry changes from 0 to the
palette expansion 7 of the untouched palette index, and the color-write
counter increments, so a color write both happens and is counted. -/
theorem C1_counterexample :
    alphaTestSampledTexel PixelShaderType.AlphaTested exPerspC1 exTextureC1 0 =
      ArenaRenderUtils.PALETTE_INDEX_TRANSPARENT ∧
    (swRender.rasterizePixel PixelShaderType.AlphaTested exPerspC1 exTextureC1 exTextureC1 0
      exHorizonC1 exLightingC1 exFrameBufferC1 [0] 0).2.1 ≠ [0] ∧
    (swRender.rasterizePixel PixelShaderType.AlphaTested exPerspC1 exTextureC1 exTextureC1 0
      exHorizonC1 exLightingC1 exFrameBufferC1 [0] 0).2.2 = 1 := by
  refine ⟨by decide, ?_, by decide⟩
  decide

attribute [local semireducible] Rat.add Rat.sub Rat.mul Rat.inv in
/-- C6 is violated: on the concrete triangle `exTriC6` the front-index
work queue consumes 69 scratch slots, so writes hit indices up to 68 and
the `DebugAssert`ed 64-entry capacity
`MAX_CLIPPED_TRIANGLE_TRIANGLES` is exceeded. -/
theorem C6_clip_scratch_overflow :
    (swGeometry.processTriangleAllPlanes exTriC6).2 = 69 ∧
    swGeometry.MAX_CLIPPED_TRIANGLE_TRIANGLES <
      (swGeometry.processTriangleAllPlanes exTriC6).2 := by
  constructor
  · decide
  · decide

theorem planeDiff_lerp (j : ℕ) (a b : Vec4) (s : ℚ) :
    swGeometry.planeDiff j (a.lerp b s) =
      swGeometry.planeDiff j a + (swGeometry.planeDiff j b - swGeometry.planeDiff j a) * s := by
  rcases j with _|_|_|_|_|_|j <;> simp [swGeometry.planeDiff, Vec4.lerp] <;> ring

theorem insideQ_false_lerp (g : Bool) (da db s : ℚ) (ha : swGeometry.insideQ g da = false)
    (hb : swGeometry.insideQ g db = false) (hs0 : 0 ≤ s) (hs1 : s ≤ 1) :
    swGeometry.insideQ g (da + (db - da) * s) = false := by
  cases g
  · simp only [swGeometry.insideQ, if_neg, Bool.if_false_left, decide_eq_false_iff_not,
      not_le] at ha hb ⊢
    simp only [Bool.false_eq_true, if_false, decide_eq_false_iff_not, not_le] at ha hb ⊢
    nlinarith [mul_nonneg hs0 hb.le, mul_nonneg (sub_nonneg.2 hs1) ha.le]
  · simp only [swGeometry.insideQ, if_true, decide_eq_false_iff_not, not_le] at ha hb ⊢
    nlinarith [mul_nonneg hs0 (neg_nonneg.2 hb.le), mul_nonneg (sub_nonneg.2 hs1)
      (neg_nonneg.2 ha.le)]

theorem tParam_unit (a b : ℚ) (hab : a * b ≤ 0) (hne : a ≠ b) :
    0 ≤ a / (a - b) ∧ a / (a - b) ≤ 1 := by
  rcases lt_trichotomy a 0 with ha|ha|ha
  · have hb : 0 ≤ b := by nlinarith
    have hden : a - b < 0 := by linarith
    constructor
    · exact div_nonneg_iff.2 (Or.inr ⟨ha.le, hden.le⟩)
    · rw [div_le_one_iff]
      exact Or.inr (Or.inr ⟨hden, by linarith⟩)
  · subst ha
    simp
  · have hb : b ≤ 0 := by nlinarith
    have hden : 0 < a - b := by linarith
    constructor
    · exact div_nonneg ha.le hden.le
    · exact (div_le_one hden).2 (by linarith)

theorem insideQ_true_false_signs (g : Bool) (p q : ℚ) (hin : swGeometry.insideQ g p = true)
    (hout : swGeometry.insideQ g q = false) : p * q ≤ 0 ∧ p ≠ q := by
  cases g
  · simp only [swGeometry.insideQ, Bool.false_eq_true, if_false, decide_eq_true_eq,
      decide_eq_false_iff_not, not_le] at hin hout
    exact ⟨by nlinarith, by intro h; rw [h] at hin; linarith⟩
  · simp only [swGeometry.insideQ, if_true, decide_eq_true_eq, decide_eq_false_iff_not,
      not_le] at hin hout
    exact ⟨by nlinarith, by intro h; rw [h] at hin; linarith⟩

theorem ProcessClipSpaceTriangle_all_inside (t : TriUV) (i : ℕ) (hi : i < 6)
    (h : allInsidePlane i t) : swGeometry.ProcessClipSpaceTriangle t i = [t] := by
  obtain ⟨h0, h1, h2⟩ := h
  unfold swGeometry.ProcessClipSpaceTriangle
  rw [if_pos hi, h0, h1, h2]
  rfl

theorem ProcessClipSpaceTriangle_all_outside (t : TriUV) (i : ℕ) (h : allOutsidePlane i t) :
    swGeometry.ProcessClipSpaceTriangle t i = [] := by
  obtain ⟨h0, h1, h2⟩ := h
  unfold swGeometry.ProcessClipSpaceTriangle
  split
  · rw [h0, h1, h2]
    rfl
  · rfl

theorem clipCore_outside_preserved (t : TriUV) (g : Bool) (d0 d1 d2 : ℚ) (j : ℕ)
    (h : allOutsidePlane j t) :
    ∀ u ∈ swGeometry.clipCore t d0 d1 d2 (swGeometry.insideQ g d0) (swGeometry.insideQ g d1)
      (swGeometry.insideQ g d2), allOutsidePlane j u := by
  obtain ⟨h0, h1, h2⟩ := h
  have lerpOut : ∀ (a b : Vec4) (s : ℚ), (0 ≤ s ∧ s ≤ 1) →
      swGeometry.insideQ (swGeometry.planeGE j) (swGeometry.planeDiff j a) = false →
      swGeometry.insideQ (swGeometry.planeGE j) (swGeometry.planeDiff j b) = false →
      swGeometry.insideQ (swGeometry.planeGE j) (swGeometry.planeDiff j (a.lerp b s)) = false := by
    intro a b s hs ha hb
    rw [planeDiff_lerp]
    exact insideQ_false_lerp _ _ _ _ ha hb hs.1 hs.2
  have sIn : ∀ p q : ℚ, swGeometry.insideQ g p = true → swGeometry.insideQ g q = false →
      0 ≤ p / (p - q) ∧ p / (p - q) ≤ 1 := by
    intro p q hp hq
    obtain ⟨hs, hne⟩ := insideQ_true_false_signs g p q hp hq
    exact tParam_unit p q hs hne
  have sOut : ∀ p q : ℚ, swGeometry.insideQ g p = true → swGeometry.insideQ g q = false →
      0 ≤ q / (q - p) ∧ q / (q - p) ≤ 1 := by
    intro p q hp hq
    obtain ⟨hs, hne⟩ := insideQ_true_false_signs g p q hp hq
    exact tParam_unit q p (by nlinarith) (Ne.symm hne)
  cases hb0 : swGeometry.insideQ g d0 <;> cases hb1 : swGeometry.insideQ g d1 <;>
      cases hb2 : swGeometry.insideQ g d2 <;> intro u hu <;>
      simp only [swGeometry.clipCore, List.mem_cons, List.not_mem_nil, or_false] at hu
  · rcases hu with rfl
    exact ⟨lerpOut _ _ _ (sOut d2 d1 hb2 hb1) h1 h2, h2, lerpOut _ _ _ (sIn d2 d0 hb2 hb0) h2 h0⟩
  · rcases hu with rfl
    exact ⟨lerpOut _ _ _ (sOut d1 d0 hb1 hb0) h0 h1, h1, lerpOut _ _ _ (sIn d1 d2 hb1 hb2) h1 h2⟩
  · rcases hu with rfl | rfl
    · exact ⟨lerpOut _ _ _ (sOut d1 d0 hb1 hb0) h0 h1, h1, h2⟩
    · exact ⟨h2, lerpOut _ _ _ (sIn d2 d0 hb2 hb0) h2 h0, lerpOut _ _ _ (sOut d1 d0 hb1 hb0) h0 h1⟩
  · rcases hu with rfl
    exact ⟨h0, lerpOut _ _ _ (sIn d0 d1 hb0 hb1) h0 h1, lerpOut _ _ _ (sOut d0 d2 hb0 hb2) h2 h0⟩
  · rcases hu with rfl | rfl
    · exact ⟨h0, lerpOut _ _ _ (sIn d0 d1 hb0 hb1) h0 h1, lerpOut _ _ _ (sOut d2 d1 hb2 hb1) h1 h2⟩
    · exact ⟨lerpOut _ _ _ (sOut d2 d1 hb2 hb1) h1 h2, h2, h0⟩
  · rcases hu with rfl | rfl
    · exact ⟨h0, h1, lerpOut _ _ _ (sIn d1 d2 hb1 hb2) h1 h2⟩
    · exact ⟨lerpOut _ _ _ (sIn d1 d2 hb1 hb2) h1 h2, lerpOut _ _ _ (sOut d0 d2 hb0 hb2) h2 h0, h0⟩
  · rcases hu with rfl
    exact ⟨h0, h1, h2⟩

theorem ProcessClipSpaceTriangle_outside_preserved (i j : ℕ) (t : TriUV)
    (h : allOutsidePlane j t) :
    ∀ u ∈ swGeometry.ProcessClipSpaceTriangle t i, allOutsidePlane j u := by
  unfold swGeometry.ProcessClipSpaceTriangle
  split
  · exact clipCore_outside_preserved t _ _ _ _ j h
  · intro u hu
    exact absurd hu (List.not_mem_nil u)

theorem clipPlanesLoop_pending_nil (ps : List ℕ) (n : ℕ) :
    swGeometry.clipPlanesLoop ps [] n = ([], n) := by
  induction ps generalizing n with
  | nil => rfl
  | cons p ps ih => simpa [swGeometry.clipPlanesLoop] using ih n

theorem clipPlanesLoop_outside_nil (ps : List ℕ) (j : ℕ) (hj : j ∈ ps) (pending : List TriUV)
    (n : ℕ) (h : ∀ u ∈ pending, allOutsidePlane j u) :
    (swGeometry.clipPlanesLoop ps pending n).1 = [] := by
  induction ps generalizing pending n with
  | nil => cases hj
  | cons p ps ih =>
    simp only [swGeometry.clipPlanesLoop]
    have happ : ∀ u ∈ pending.flatMap (fun t => swGeometry.ProcessClipSpaceTriangle t p),
        allOutsidePlane j u := by
      intro u hu
      rw [List.mem_flatMap] at hu
      obtain ⟨t0, ht0, hu2⟩ := hu
      exact ProcessClipSpaceTriangle_outside_preserved p j t0 (h t0 ht0) u hu2
    by_cases hp : p = j
    · subst hp
      have hnil : pending.flatMap (fun t => swGeometry.ProcessClipSpaceTriangle t p) = [] := by
        rw [List.flatMap_eq_nil_iff]
        intro t0 ht0
        exact ProcessClipSpaceTriangle_all_outside t0 p (h t0 ht0)
      rw [hnil, clipPlanesLoop_pending_nil]
    · have hj2 : j ∈ ps := by
        rcases List.mem_cons.1 hj with hcase | hcase
        · exact absurd hcase.symm hp
        · exact hcase
      exact ih hj2 _ _ happ

/-- C3: clipping a triangle whose three vertices are inside all six
frustum planes yields exactly one triangle, identical to the input in
clip-space vertices and UVs. -/
theorem C3_fully_inside_identity (t : TriUV) (h : ∀ i, i < 6 → allInsidePlane i t) :
    (swGeometry.processTriangleAllPlanes t).1 = [t] := by
  have p0 := ProcessClipSpaceTriangle_all_inside t 0 (by norm_num) (h 0 (by norm_num))
  have p1 := ProcessClipSpaceTriangle_all_inside t 1 (by norm_num) (h 1 (by norm_num))
  have p2 := ProcessClipSpaceTriangle_all_inside t 2 (by norm_num) (h 2 (by norm_num))
  have p3 := ProcessClipSpaceTriangle_all_inside t 3 (by norm_num) (h 3 (by norm_num))
  have p4 := ProcessClipSpaceTriangle_all_inside t 4 (by norm_num) (h 4 (by norm_num))
  have p5 := ProcessClipSpaceTriangle_all_inside t 5 (by norm_num) (h 5 (by norm_num))
  simp [swGeometry.processTriangleAllPlanes, swGeometry.clipPlaneIndices,
    swGeometry.clipPlanesLoop, p0, p1, p2, p3, p4, p5]

attribute [local semireducible] Rat.add Rat.sub Rat.mul Rat.inv in
/-- Witness for C3 on the concrete fully-inside triangle. -/
theorem C3_fully_inside_identity_witness :
    (swGeometry.processTriangleAllPlanes insideTriC3).1 = [insideTriC3] := by
  exact C3_fully_inside_identity insideTriC3 (by decide)

/-- C4: a triangle classified entirely outside one clip plane is dropped
by that plane's test (0 result triangles), and consequently contributes
no triangle at all to the clipped mesh for the draw call. -/
theorem C4_all_outside_dropped (t : TriUV) (i : ℕ) (hi : i < 6) (h : allOutsidePlane i t) :
    swGeometry.ProcessClipSpaceTriangle t i = [] ∧
      (swGeometry.processTriangleAllPlanes t).1 = [] := by
  refine ⟨ProcessClipSpaceTriangle_all_outside t i h, ?_⟩
  apply clipPlanesLoop_outside_nil swGeometry.clipPlaneIndices i ?_ [t] 1 ?_
  · simp only [swGeometry.clipPlaneIndices, List.mem_cons, List.mem_singleton]
    omega
  · intro u hu
    rw [List.mem_singleton] at hu
    subst hu
    exact h

theorem projectedSignedArea_eq_det3_div (a b c : Vec4) (ha : a.w ≠ 0) (hb : b.w ≠ 0)
    (hc : c.w ≠ 0) :
    projectedSignedArea a b c = det3 a b c / (a.w * b.w * c.w) := by
  unfold projectedSignedArea det3
  field_simp
  ring

theorem ratSign_div_pos (x p : ℚ) (hp : 0 < p) : ratSign (x / p) = ratSign x := by
  unfold ratSign
  rcases lt_trichotomy x 0 with hx|hx|hx
  · rw [if_neg (by nlinarith [div_neg_of_neg_of_pos hx hp]), if_pos (div_neg_of_neg_of_pos hx hp),
      if_neg (by linarith), if_pos hx]
  · subst hx
    simp
  · rw [if_pos (div_pos hx hp), if_pos hx]

theorem ratSign_mul_pos (k x : ℚ) (hk : 0 < k) : ratSign (k * x) = ratSign x := by
  unfold ratSign
  rcases lt_trichotomy x 0 with hx|hx|hx
  · rw [if_neg (by nlinarith), if_pos (by nlinarith), if_neg (by linarith), if_pos hx]
  · subst hx
    simp
  · rw [if_pos (by nlinarith), if_pos hx]

theorem ratSign_projArea_eq_of_det_scale (a b c d e f : Vec4) {k : ℚ}
    (hwa : 0 < a.w) (hwb : 0 < b.w) (hwc : 0 < c.w)
    (hwd : 0 < d.w) (hwe : 0 < e.w) (hwf : 0 < f.w)
    (hdet : det3 d e f = k * det3 a b c) (hk : 0 < k) :
    ratSign (projectedSignedArea d e f) = ratSign (projectedSignedArea a b c) := by
  rw [projectedSignedArea_eq_det3_div a b c hwa.ne.symm hwb.ne.symm hwc.ne.symm,
    projectedSignedArea_eq_det3_div d e f hwd.ne.symm hwe.ne.symm hwf.ne.symm,
    ratSign_div_pos _ _ (by positivity), ratSign_div_pos _ _ (by positivity), hdet,
    ratSign_mul_pos _ _ hk]

theorem lerp_w_pos (a b : Vec4) (s : ℚ) (hs : 0 ≤ s ∧ s ≤ 1) (ha : 0 < a.w) (hb : 0 < b.w) :
    0 < (a.lerp b s).w := by
  simp only [Vec4.lerp]
  nlinarith [mul_nonneg hs.1 hb.le, mul_nonneg (sub_nonneg.2 hs.2) ha.le]

theorem tParam_unit_strict (a b : ℚ) (hab : a * b < 0) :
    0 < a / (a - b) ∧ a / (a - b) < 1 := by
  rcases lt_trichotomy a 0 with ha|ha|ha
  · have hb : 0 < b := by nlinarith
    have hden : a - b < 0 := by linarith
    constructor
    · exact div_pos_of_neg_of_neg ha hden
    · rw [div_lt_one_iff]
      exact Or.inr (Or.inr ⟨hden, by linarith⟩)
  · subst ha
    simp at hab
  · have hb : b < 0 := by nlinarith
    have hden : 0 < a - b := by linarith
    constructor
    · exact div_pos ha hden
    · exact (div_lt_one hden).2 (by linarith)

theorem insideQ_strict_signs (g : Bool) (p q : ℚ) (hin : swGeometry.insideQ g p = true)
    (hout : swGeometry.insideQ g q = false) (hp : p ≠ 0) : p * q < 0 := by
  cases g
  · simp only [swGeometry.insideQ, Bool.false_eq_true, if_false, decide_eq_true_eq,
      decide_eq_false_iff_not, not_le] at hin hout
    have hps : p < 0 := lt_of_le_of_ne hin hp
    nlinarith
  · simp only [swGeometry.insideQ, if_true, decide_eq_true_eq, decide_eq_false_iff_not,
      not_le] at hin hout
    have hps : 0 < p := lt_of_le_of_ne hin (Ne.symm hp)
    nlinarith

theorem det3_lerp23 (a b c : Vec4) (s : ℚ) : det3 a b (b.lerp c s) = s * det3 a b c := by
  simp only [det3, Vec4.lerp]
  ring

theorem det3_quad_ttf (a b c : Vec4) (s1 s2 : ℚ) :
    det3 (b.lerp c s1) (c.lerp a s2) a = ((1 - s1) * (1 - s2)) * det3 a b c := by
  simp only [det3, Vec4.lerp]
  ring

theorem det3_quad_tft1 (a b c : Vec4) (s1 s2 : ℚ) :
    det3 a (a.lerp b s1) (b.lerp c s2) = (s1 * s2) * det3 a b c := by
  simp only [det3, Vec4.lerp]
  ring

theorem det3_quad_tft2 (a b c : Vec4) (s : ℚ) :
    det3 (b.lerp c s) c a = (1 - s) * det3 a b c := by
  simp only [det3, Vec4.lerp]
  ring

theorem det3_small_tff (a b c : Vec4) (s1 s2 : ℚ) :
    det3 a (a.lerp b s1) (c.lerp a s2) = (s1 * (1 - s2)) * det3 a b c := by
  simp only [det3, Vec4.lerp]
  ring

theorem det3_quad_ftt1 (a b c : Vec4) (s : ℚ) :
    det3 (a.lerp b s) b c = (1 - s) * det3 a b c := by
  simp only [det3, Vec4.lerp]
  ring

theorem det3_quad_ftt2 (a b c : Vec4) (s1 s2 : ℚ) :
    det3 c (c.lerp a s1) (a.lerp b s2) = (s1 * s2) * det3 a b c := by
  simp only [det3, Vec4.lerp]
  ring

theorem det3_small_ftf (a b c : Vec4) (s1 s2 : ℚ) :
    det3 (a.lerp b s1) b (b.lerp c s2) = ((1 - s1) * s2) * det3 a b c := by
  simp only [det3, Vec4.lerp]
  ring

theorem det3_small_fft (a b c : Vec4) (s1 s2 : ℚ) :
    det3 (b.lerp c s1) c (c.lerp a s2) = ((1 - s1) * s2) * det3 a b c := by
  simp only [det3, Vec4.lerp]
  ring

/-- C5 (amended): when the triangle's three vertices have positive w and
none lies exactly on the clip plane, every triangle produced by
`ProcessClipSpaceTriangle` keeps the sign of the input's projected signed
area — clipping never flips handedness under those hypotheses. -/
theorem C5_winding_preserved (t : TriUV) (i : ℕ)
    (hw0 : 0 < t.v0.w) (hw1 : 0 < t.v1.w) (hw2 : 0 < t.v2.w)
    (hd0 : swGeometry.planeDiff i t.v0 ≠ 0) (hd1 : swGeometry.planeDiff i t.v1 ≠ 0)
    (hd2 : swGeometry.planeDiff i t.v2 ≠ 0) :
    ∀ u ∈ swGeometry.ProcessClipSpaceTriangle t i,
      ratSign (projectedSignedArea u.v0 u.v1 u.v2) =
        ratSign (projectedSignedArea t.v0 t.v1 t.v2) := by
  unfold swGeometry.ProcessClipSpaceTriangle
  split
  case isFalse =>
    intro u hu
    exact absurd hu (List.not_mem_nil u)
  case isTrue hi =>
    set g := swGeometry.planeGE i with hg
    set d0 := swGeometry.planeDiff i t.v0 with hdd0
    set d1 := swGeometry.planeDiff i t.v1 with hdd1
    set d2 := swGeometry.planeDiff i t.v2 with hdd2
    have sInS : ∀ p q : ℚ, swGeometry.insideQ g p = true → swGeometry.insideQ g q = false →
        p ≠ 0 → 0 < p / (p - q) ∧ p / (p - q) < 1 := by
      intro p q hp hq hpne
      exact tParam_unit_strict p q (insideQ_strict_signs g p q hp hq hpne)
    have sOutS : ∀ p q : ℚ, swGeometry.insideQ g p = true → swGeometry.insideQ g q = false →
        p ≠ 0 → 0 < q / (q - p) ∧ q / (q - p) < 1 := by
      intro p q hp hq hpne
      refine tParam_unit_strict q p (by nlinarith [insideQ_strict_signs g p q hp hq hpne])
    cases hb0 : swGeometry.insideQ g d0 <;> cases hb1 : swGeometry.insideQ g d1 <;>
        cases hb2 : swGeometry.insideQ g d2 <;> intro u hu <;>
        simp only [swGeometry.clipCore, List.mem_cons, List.not_mem_nil, or_false] at hu
    · obtain ⟨hsa, hsb⟩ := sOutS d2 d1 hb2 hb1 hd2
      obtain ⟨hsc, hsd⟩ := sInS d2 d0 hb2 hb0 hd2
      rcases hu with rfl
      exact ratSign_projArea_eq_of_det_scale t.v0 t.v1 t.v2 _ _ _
        hw0 hw1 hw2
        (lerp_w_pos t.v1 t.v2 _ ⟨hsa.le, hsb.le⟩ hw1 hw2) hw2
        (lerp_w_pos t.v2 t.v0 _ ⟨hsc.le, hsd.le⟩ hw2 hw0)
        (det3_small_fft t.v0 t.v1 t.v2 _ _)
        (mul_pos (by linarith) hsc)
    · obtain ⟨hsa, hsb⟩ := sOutS d1 d0 hb1 hb0 hd1
      obtain ⟨hsc, hsd⟩ := sInS d1 d2 hb1 hb2 hd1
      rcases hu with rfl
      exact ratSign_projArea_eq_of_det_scale t.v0 t.v1 t.v2 _ _ _
        hw0 hw1 hw2
        (lerp_w_pos t.v0 t.v1 _ ⟨hsa.le, hsb.le⟩ hw0 hw1) hw1
        (lerp_w_pos t.v1 t.v2 _ ⟨hsc.le, hsd.le⟩ hw1 hw2)
        (det3_small_ftf t.v0 t.v1 t.v2 _ _)
        (mul_pos (by linarith) hsc)
    · obtain ⟨hsa, hsb⟩ := sOutS d1 d0 hb1 hb0 hd1
      obtain ⟨hsc, hsd⟩ := sInS d2 d0 hb2 hb0 hd2
      rcases hu with rfl | rfl
      · exact ratSign_projArea_eq_of_det_scale t.v0 t.v1 t.v2 _ _ _
          hw0 hw1 hw2
          (lerp_w_pos t.v0 t.v1 _ ⟨hsa.le, hsb.le⟩ hw0 hw1) hw1 hw2
          (det3_quad_ftt1 t.v0 t.v1 t.v2 _)
          (by linarith)
      · exact ratSign_projArea_eq_of_det_scale t.v0 t.v1 t.v2 _ _ _
          hw0 hw1 hw2
          hw2 (lerp_w_pos t.v2 t.v0 _ ⟨hsc.le, hsd.le⟩ hw2 hw0)
          (lerp_w_pos t.v0 t.v1 _ ⟨hsa.le, hsb.le⟩ hw0 hw1)
          (det3_quad_ftt2 t.v0 t.v1 t.v2 _ _)
          (mul_pos hsc hsa)
    · obtain ⟨hsa, hsb⟩ := sInS d0 d1 hb0 hb1 hd0
      obtain ⟨hsc, hsd⟩ := sOutS d0 d2 hb0 hb2 hd0
      rcases hu with rfl
      exact ratSign_projArea_eq_of_det_scale t.v0 t.v1 t.v2 _ _ _
        hw0 hw1 hw2
        hw0 (lerp_w_pos t.v0 t.v1 _ ⟨hsa.le, hsb.le⟩ hw0 hw1)
        (lerp_w_pos t.v2 t.v0 _ ⟨hsc.le, hsd.le⟩ hw2 hw0)
        (det3_small_tff t.v0 t.v1 t.v2 _ _)
        (mul_pos hsa (by linarith))
    · obtain ⟨hsa, hsb⟩ := sInS d0 d1 hb0 hb1 hd0
      obtain ⟨hsc, hsd⟩ := sOutS d2 d1 hb2 hb1 hd2
      rcases hu with rfl | rfl
      · exact ratSign_projArea_eq_of_det_scale t.v0 t.v1 t.v2 _ _ _
          hw0 hw1 hw2
          hw0 (lerp_w_pos t.v0 t.v1 _ ⟨hsa.le, hsb.le⟩ hw0 hw1)
          (lerp_w_pos t.v1 t.v2 _ ⟨hsc.le, hsd.le⟩ hw1 hw2)
          (det3_quad_tft1 t.v0 t.v1 t.v2 _ _)
          (mul_pos hsa hsc)
      · exact ratSign_projArea_eq_of_det_scale t.v0 t.v1 t.v2 _ _ _
          hw0 hw1 hw2
          (lerp_w_pos t.v1 t.v2 _ ⟨hsc.le, hsd.le⟩ hw1 hw2) hw2 hw0
          (det3_quad_tft2 t.v0 t.v1 t.v2 _)
          (by linarith)
    · obtain ⟨hsa, hsb⟩ := sInS d1 d2 hb1 hb2 hd1
      obtain ⟨hsc, hsd⟩ := sOutS d0 d2 hb0 hb2 hd0
      rcases hu with rfl | rfl
      · exact ratSign_projArea_eq_of_det_scale t.v0 t.v1 t.v2 _ _ _
          hw0 hw1 hw2
          hw0 hw1 (lerp_w_pos t.v1 t.v2 _ ⟨hsa.le, hsb.le⟩ hw1 hw2)
          (det3_lerp23 t.v0 t.v1 t.v2 _)
          hsa
      · exact ratSign_projArea_eq_of_det_scale t.v0 t.v1 t.v2 _ _ _
          hw0 hw1 hw2
          (lerp_w_pos t.v1 t.v2 _ ⟨hsa.le, hsb.le⟩ hw1 hw2)
          (lerp_w_pos t.v2 t.v0 _ ⟨hsc.le, hsd.le⟩ hw2 hw0) hw0
          (det3_quad_ttf t.v0 t.v1 t.v2 _ _)
          (mul_pos (by linarith) (by linarith))
    · rcases hu with rfl
      rfl

attribute [local semireducible] Rat.add Rat.sub Rat.mul Rat.inv in
/-- Witness for C5 (amended): the first triangle produced by clipping a
concrete positive-w triangle against plane 0 keeps the sign of its
projected area. -/
theorem C5_winding_preserved_witness :
    ratSign (projectedSignedArea (⟨-1, 1/4, 0, 1⟩ : Vec4) ⟨2, 1, 0, 1⟩ ⟨2, -1, 0, 1⟩) =
      ratSign (projectedSignedArea (⟨-2, 0, 0, 1⟩ : Vec4) ⟨2, 1, 0, 1⟩ ⟨2, -1, 0, 1⟩) := by
  exact C5_winding_preserved
    ⟨⟨-2, 0, 0, 1⟩, ⟨2, 1, 0, 1⟩, ⟨2, -1, 0, 1⟩, uvZero, uvZero, uvZero⟩ 0
    (by norm_num) (by norm_num) (by norm_num)
    (by decide) (by decide) (by decide)
    ⟨⟨-1, 1/4, 0, 1⟩, ⟨2, 1, 0, 1⟩, ⟨2, -1, 0, 1⟩, uvZero, uvZero, uvZero⟩
    (by decide)

attribute [local semireducible] Rat.add Rat.sub Rat.mul Rat.inv in
/-- Counterexample for C5 as originally stated: the mixed-w triangle
`flipTriC5` is clipped by plane 0 into a triangle whose projected signed
area has the opposite sign, and the positive-w triangle `degTriC5`, with
one vertex exactly on plane 0, clips to a degenerate zero-area triangle
while its own projected area is nonzero. -/
theorem C5_counterexample :
    (∃ u ∈ swGeometry.ProcessClipSpaceTriangle flipTriC5 0,
      ratSign (projectedSignedArea u.v0 u.v1 u.v2) ≠
        ratSign (projectedSignedArea flipTriC5.v0 flipTriC5.v1 flipTriC5.v2)) ∧
    (∃ u ∈ swGeometry.ProcessClipSpaceTriangle degTriC5 0,
      ratSign (projectedSignedArea u.v0 u.v1 u.v2) ≠
        ratSign (projectedSignedArea degTriC5.v0 degTriC5.v1 degTriC5.v2)) := by
  constructor
  · decide
  · decide

attribute [local semireducible] Rat.add Rat.sub Rat.mul Rat.inv in
/-- Witness for C4 on the concrete triangle beyond plane 0. -/
theorem C4_all_outside_dropped_witness :
    swGeometry.ProcessClipSpaceTriangle outsideTriC4 0 = [] ∧
      (swGeometry.processTriangleAllPlanes outsideTriC4).1 = [] := by
  exact C4_all_outside_dropped outsideTriC4 0 (by norm_num) (by decide)

end OpenTESArena
